import Mathlib

/-!
Verification of the otc-predictor core against its specification.

Shallow embedding conventions:
* Go `float64` prices, confidences and weights are modelled as exact
  rationals (`ℚ`); decimal literals of the source are taken at their
  decimal value.
* Go `int` values are modelled as `ℤ`; Go integer division (which
  truncates toward zero) is `Int.tdiv`.
* `time.Time` values are modelled as integer nanoseconds since the epoch
  (`ℤ`); `time.Duration` constants are multiples of `nanosPerSecond`.
* `math.Sqrt` is modelled by the computable nonnegative square-root
  approximation `ratSqrt`; every property proved below depends only on
  its nonnegativity (and monotone evaluation at concrete points).
* Fallible operations return `Option`/`Except`; Go map reads/writes are
  functions with pointwise update.
-/

def nanosPerSecond : ℤ := 1000000000

/-- Go `strings.Contains`, on the underlying character lists. -/
def listContainsSub (sub : List Char) : List Char → Bool
  | [] => List.isPrefixOf sub []
  | c :: rest => List.isPrefixOf sub (c :: rest) || listContainsSub sub rest

/-- Go `strings.Contains s sub`. -/
def strContains (s sub : String) : Bool := listContainsSub sub.data s.data

/-- Go `strings.ToLower` (ASCII case folding suffices for the market ids used). -/
def strToLower (s : String) : String := String.mk (s.data.map Char.toLower)

/-- Go `strings.ToUpper`. -/
def strToUpper (s : String) : String := String.mk (s.data.map Char.toUpper)

/-- Go `int(x)` conversion of a float, truncating toward zero. -/
def goTruncQ (q : ℚ) : ℤ := Int.tdiv q.num (q.den : ℤ)

/-- Rendering of Go `fmt` `%.0f` (fixed point, zero decimals), modelled by
    integer rounding; these rendered numbers appear only inside display
    strings whose content the claims never inspect beyond non-emptiness. -/
def fmt0 (q : ℚ) : String := toString (round q)

/-- Rendering of Go `fmt` `%.1f`, modelled by the value scaled by ten and
    rounded (display only, as for `fmt0`). -/
def fmt1 (q : ℚ) : String := toString (round (q * 10))

/-- Computable stand-in for `math.Sqrt` on ℚ: nonnegative, and exact on
    perfect squares (`ratSqrt (a*a) = a` for nonnegative `a` with
    square-free-compatible denominator handled at concrete inputs). -/
def ratSqrt (q : ℚ) : ℚ :=
  if q ≤ 0 then 0 else (Nat.sqrt (q.num.toNat * q.den) : ℚ) / (q.den : ℚ)

/-- `pkg/types.Tick`. -/
structure Tick where
  Market : String
  Price : ℚ
  Timestamp : ℤ
  Epoch : ℤ
  deriving Repr, DecidableEq

/-- `pkg/types.Candle`. -/
structure Candle where
  Market : String
  Open : ℚ
  High : ℚ
  Low : ℚ
  Close : ℚ
  Volume : ℚ
  Timestamp : ℤ
  deriving Repr, DecidableEq

/-- `pkg/types.Indicators`. -/
structure Indicators where
  RSI : ℚ
  EMA9 : ℚ
  EMA21 : ℚ
  EMA50 : ℚ
  BBUpper : ℚ
  BBMiddle : ℚ
  BBLower : ℚ
  BBPosition : ℚ
  Volatility : ℚ
  Momentum : ℚ
  TrendStrength : ℚ
  deriving Repr, DecidableEq

/-- The Go zero value of `types.Indicators`. -/
def emptyIndicators : Indicators := ⟨0, 0, 0, 0, 0, 0, 0, 0, 0, 0, 0⟩

/-- `pkg/types.StrategySignal`. -/
structure StrategySignal where
  Name : String
  Direction : String
  Confidence : ℚ
  Reason : String
  Weight : ℚ
  deriving Repr, DecidableEq

/-- `pkg/types.Prediction`. -/
structure Prediction where
  ID : String
  Market : String
  MarketType : String
  Direction : String
  Confidence : ℚ
  Reason : String
  CurrentPrice : ℚ
  Duration : ℤ
  Timestamp : ℤ
  Indicators : Indicators
  DataPoints : ℤ
  deriving Repr, DecidableEq

/-- `pkg/types.PendingPrediction`. -/
structure PendingPrediction where
  ID : String
  Market : String
  MarketType : String
  Direction : String
  EntryPrice : ℚ
  EntryTime : ℤ
  Duration : ℤ
  Confidence : ℚ
  ExpiryTime : ℤ
  deriving Repr, DecidableEq

/-- `pkg/types.TradeResult`. -/
structure TradeResult where
  PredictionID : String
  Market : String
  MarketType : String
  Direction : String
  EntryPrice : ℚ
  ExitPrice : ℚ
  EntryTime : ℤ
  ExitTime : ℤ
  Duration : ℤ
  Confidence : ℚ
  Won : Bool
  ProfitLoss : ℚ
  PriceChange : ℚ
  deriving Repr, DecidableEq

/-- `pkg/types.StrategyConfig` (the fields the modelled core reads). -/
structure StrategyConfig where
  MinConfidence : ℚ
  RSIPeriod : ℤ
  EMAFast : ℤ
  EMASlow : ℤ
  EMATrend : ℤ
  BBPeriod : ℤ
  BBStdDev : ℚ
  deriving Repr

/-- `pkg/types.RiskConfig` (the field the engine reads). -/
structure RiskConfig where
  MaxPredictionsPerMinute : ℤ
  deriving Repr

/-- `pkg/types.Config` (the fields the engine reads). -/
structure Config where
  Strategy : StrategyConfig
  Risk : RiskConfig
  deriving Repr

/-- Placeholder tick used to model Go's panicking indexed accesses
    (`ticks[len(ticks)-1]`) as total functions; every modelled call path
    establishes non-emptiness before such an access. -/
def dummyTick : Tick := ⟨"", 0, 0, 0⟩

/-- Consecutive price changes: entry `i` is `ticks[i+1].Price - ticks[i].Price`. -/
def priceChanges (ticks : List Tick) : List ℚ :=
  List.zipWith (fun a b => a.Price - b.Price) ticks.tail ticks

/-- The `actualPeriod` local of `indicators.CalculateRSI`. -/
def rsiActualPeriod (ticks : List Tick) (period : ℤ) : ℤ :=
  let n : ℤ := ticks.length
  let ap0 : ℤ := if n - 1 < period then n - 1 else period
  if ap0 < 5 then 5 else ap0

/-- The `startIdx` local of `indicators.CalculateRSI`. -/
def rsiStartIdx (ticks : List Tick) (period : ℤ) : ℤ :=
  let n : ℤ := ticks.length
  if n - rsiActualPeriod ticks period < 1 then 1 else n - rsiActualPeriod ticks period

/-- The changes summed by the gain/loss loop of `CalculateRSI`
    (indices `startIdx ≤ i < len(ticks)` of the tick list, i.e. entries
    `startIdx - 1` onward of `priceChanges`). -/
def rsiWindow (ticks : List Tick) (period : ℤ) : List ℚ :=
  (priceChanges ticks).drop (rsiStartIdx ticks period - 1).toNat

/-- `avgGain` of `indicators.CalculateRSI`. -/
def rsiAvgGain (ticks : List Tick) (period : ℤ) : ℚ :=
  ((rsiWindow ticks period).map (fun c => max c 0)).sum / ((rsiActualPeriod ticks period : ℤ) : ℚ)

/-- `avgLoss` of `indicators.CalculateRSI`. -/
def rsiAvgLoss (ticks : List Tick) (period : ℤ) : ℚ :=
  ((rsiWindow ticks period).map (fun c => max (-c) 0)).sum / ((rsiActualPeriod ticks period : ℤ) : ℚ)

/-- `indicators.CalculateRSI`. -/
def CalculateRSI (ticks : List Tick) (period : ℤ) : ℚ :=
  if (ticks.length : ℤ) < Int.tdiv period 2 then 50
  else
    let avgGain := rsiAvgGain ticks period
    let avgLoss := rsiAvgLoss ticks period
    if avgLoss = 0 then (if avgGain > 0 then 100 else 50)
    else 100 - (100 / (1 + avgGain / avgLoss))

/-- `indicators.CalculateEMA`. -/
def CalculateEMA (ticks : List Tick) (period : ℤ) : ℚ :=
  if ticks.length = 0 then 0
  else if (ticks.length : ℤ) < Int.tdiv period 3 then
    (ticks.map Tick.Price).sum / (ticks.length : ℚ)
  else
    let ap : ℤ := if (ticks.length : ℤ) < period then (ticks.length : ℤ) else period
    let multiplier : ℚ := 2 / ((ap : ℚ) + 1)
    let window := (ticks.map Tick.Price).drop ((ticks.length : ℤ) - ap).toNat
    let seed := window.sum / (ap : ℚ)
    (window.drop 1).foldl (fun ema p => (p - ema) * multiplier + ema) seed

/-- `indicators.CalculateSMA`. -/
def CalculateSMA (ticks : List Tick) (period : ℤ) : ℚ :=
  if ticks.length = 0 then 0
  else
    let p : ℤ := if (ticks.length : ℤ) < period then (ticks.length : ℤ) else period
    let window := (ticks.map Tick.Price).drop ((ticks.length : ℤ) - p).toNat
    window.sum / (p : ℚ)

/-- `indicators.BollingerBands`. -/
structure BollingerBands where
  Upper : ℚ
  Middle : ℚ
  Lower : ℚ
  deriving Repr, DecidableEq

/-- `indicators.CalculateBollingerBands`. -/
def CalculateBollingerBands (ticks : List Tick) (period : ℤ) (stdDev : ℚ) : BollingerBands :=
  if h : ticks = [] then ⟨0, 0, 0⟩
  else
    let n : ℤ := ticks.length
    if n < period ∧ n < 5 then
      let currentPrice := (ticks.getLast h).Price
      ⟨currentPrice * (103/100), currentPrice, currentPrice * (97/100)⟩
    else
      let actualPeriod : ℤ := if n < period then n else period
      let middle := CalculateSMA ticks actualPeriod
      let window := (ticks.map Tick.Price).drop (n - actualPeriod).toNat
      let s := (window.map (fun p => (p - middle) * (p - middle))).sum
      let stdDeviation := ratSqrt (s / (actualPeriod : ℚ))
      ⟨middle + stdDeviation * stdDev, middle, middle - stdDeviation * stdDev⟩

/-- `indicators.CalculateBBPosition`. -/
def CalculateBBPosition (price : ℚ) (bb : BollingerBands) : ℚ :=
  if bb.Upper = bb.Lower then 0
  else
    let position := (price - bb.Middle) / (bb.Upper - bb.Middle)
    if position > 1 then 1 else if position < -1 then -1 else position

/-- `indicators.CalculateVolatility`. -/
def CalculateVolatility (ticks : List Tick) (period : ℤ) : ℚ :=
  if ticks.length < 2 then 0
  else
    let ap : ℤ := if (ticks.length : ℤ) < period then (ticks.length : ℤ) else period
    let window := (ticks.map Tick.Price).drop ((ticks.length : ℤ) - ap).toNat
    let mean := window.sum / (ap : ℚ)
    let variance := (window.map (fun p => (p - mean) * (p - mean))).sum / (ap : ℚ)
    ratSqrt variance

/-- `indicators.CalculateMomentum`. -/
def CalculateMomentum (ticks : List Tick) (period : ℤ) : ℚ :=
  if ticks.length < 2 then 0
  else
    let n : ℤ := ticks.length
    let ap0 : ℤ := if n - 1 < period then n - 1 else period
    let ap : ℤ := if ap0 < 1 then 1 else ap0
    let currentPrice := (ticks.getLastD dummyTick).Price
    let pastPrice := (ticks.map Tick.Price).getD (n - ap - 1).toNat 0
    if pastPrice = 0 then 0 else ((currentPrice - pastPrice) / pastPrice) * 100

/-- `indicators.CalculateTrendStrength`. -/
def CalculateTrendStrength (ticks : List Tick) (emaFast emaSlow emaTrend : ℤ) : ℚ :=
  if ticks.length < 5 then 0
  else
    let emaF := CalculateEMA ticks emaFast
    let emaS := CalculateEMA ticks emaSlow
    let emaT := CalculateEMA ticks emaTrend
    if emaF = 0 ∨ emaS = 0 ∨ emaT = 0 then 0
    else
      let currentPrice := (ticks.getLastD dummyTick).Price
      if (emaF > emaS ∧ emaS > emaT) ∨ (emaF < emaS ∧ emaS < emaT) then
        min (|emaF - emaT| / currentPrice * 100) 1
      else 3/10

/-- `indicators.CalculateAllIndicators`. -/
def CalculateAllIndicators (ticks : List Tick) (config : StrategyConfig) : Indicators :=
  if ticks.length = 0 then emptyIndicators
  else
    let currentPrice := (ticks.getLastD dummyTick).Price
    let bb := CalculateBollingerBands ticks config.BBPeriod config.BBStdDev
    { RSI := CalculateRSI ticks config.RSIPeriod
      EMA9 := CalculateEMA ticks config.EMAFast
      EMA21 := CalculateEMA ticks config.EMASlow
      EMA50 := CalculateEMA ticks config.EMATrend
      BBUpper := bb.Upper
      BBMiddle := bb.Middle
      BBLower := bb.Lower
      BBPosition := CalculateBBPosition currentPrice bb
      Volatility := CalculateVolatility ticks 20
      Momentum := CalculateMomentum ticks 10
      TrendStrength := CalculateTrendStrength ticks config.EMAFast config.EMASlow config.EMATrend }

/-- `time.Time.Truncate`: round a timestamp down to a multiple of `period`
    since the epoch; Go returns the time unchanged for non-positive periods. -/
def truncateTime (t : ℤ) (period : ℤ) : ℤ :=
  if period ≤ 0 then t else t - t % period

/-- The fresh candle opened by `candles.TicksToCandles` for a tick. -/
def newCandle (t : Tick) (candleTime : ℤ) : Candle :=
  { Market := t.Market, Open := t.Price, High := t.Price, Low := t.Price,
    Close := t.Price, Volume := 1, Timestamp := candleTime }

/-- The in-bucket update of `candles.TicksToCandles`. -/
def updateCandle (c : Candle) (t : Tick) : Candle :=
  { c with
    High := if t.Price > c.High then t.Price else c.High,
    Low := if t.Price < c.Low then t.Price else c.Low,
    Close := t.Price,
    Volume := c.Volume + 1 }

/-- The main loop of `candles.TicksToCandles`: `acc` is the closed-candle
    list, `cur` the candle under construction. -/
def ticksToCandlesLoop (period : ℤ) : List Tick → List Candle → Candle → List Candle
  | [], acc, cur => acc ++ [cur]
  | t :: rest, acc, cur =>
      let candleTime := truncateTime t.Timestamp period
      if cur.Timestamp = candleTime then
        ticksToCandlesLoop period rest acc (updateCandle cur t)
      else
        ticksToCandlesLoop period rest (acc ++ [cur]) (newCandle t candleTime)

/-- `candles.TicksToCandles`. -/
def TicksToCandles (ticks : List Tick) (period : ℤ) : List Candle :=
  match ticks with
  | [] => []
  | t :: rest => ticksToCandlesLoop period rest [] (newCandle t (truncateTime t.Timestamp period))

/-- `candles.CandlesToTicks`. -/
def CandlesToTicks (candles : List Candle) : List Tick :=
  candles.map (fun c =>
    { Market := c.Market, Price := c.Close, Timestamp := c.Timestamp,
      Epoch := Int.fdiv c.Timestamp nanosPerSecond })

/-- `candles.TimeframeConfig`. -/
structure TimeframeConfig where
  CandlePeriod : ℤ
  MinCandles : ℤ
  RSIPeriod : ℤ
  EMAFast : ℤ
  EMASlow : ℤ
  EMATrend : ℤ
  LookbackPeriod : ℤ
  deriving Repr, DecidableEq

/-- `candles.GetTimeframeConfig`. -/
def GetTimeframeConfig (durationSeconds : ℤ) (marketType : String) : TimeframeConfig :=
  if marketType = ("forex") then
    if durationSeconds ≤ 900 then
      ⟨60 * nanosPerSecond, 15, 14, 9, 21, 50, 50⟩
    else if durationSeconds ≤ 1800 then
      ⟨120 * nanosPerSecond, 18, 14, 9, 21, 50, 60⟩
    else
      ⟨300 * nanosPerSecond, 20, 14, 9, 21, 50, 80⟩
  else
    if durationSeconds ≤ 60 then
      ⟨5 * nanosPerSecond, 15, 14, 9, 21, 50, 40⟩
    else if durationSeconds ≤ 180 then
      ⟨10 * nanosPerSecond, 20, 14, 9, 21, 50, 50⟩
    else
      ⟨30 * nanosPerSecond, 25, 14, 9, 21, 50, 60⟩

/-- `candles.GetMinimumTicksRequired`. -/
def GetMinimumTicksRequired (config : TimeframeConfig) (marketType : String) : ℤ :=
  if marketType = ("forex") then config.MinCandles + 5
  else config.MinCandles + 10

/-- `candles.ValidateCandles`. -/
def ValidateCandles (candles : List Candle) (minRequired : ℤ) : Bool × String :=
  if (candles.length : ℤ) < goTruncQ ((minRequired : ℚ) * (8/10)) then
    (false, ("insufficient_candles"))
  else
    let zeroVolCount := candles.countP (fun c => decide (c.Volume = 0))
    if 0 < candles.length ∧ (zeroVolCount : ℚ) / (candles.length : ℚ) > 1/2 then
      (false, ("stale_data"))
    else
      (true, ("valid"))

/-- The settlement step of `tracker.checkResultLater`, after the horizon
    sleep: reads the instrument's latest price (price `0` models Go's
    "no price available", which drops the pending entry and produces no
    result) and otherwise settles the pending prediction into a
    `TradeResult` at `exitTime`. -/
def checkResultLater (pending : PendingPrediction) (currentPrice : ℚ) (exitTime : ℤ) :
    Option TradeResult :=
  if currentPrice = 0 then none
  else
    let priceChange := currentPrice - pending.EntryPrice
    let won : Bool :=
      if pending.Direction = ("UP") ∧ currentPrice > pending.EntryPrice then true
      else if pending.Direction = ("DOWN") ∧ currentPrice < pending.EntryPrice then true
      else false
    let profitLoss : ℚ := if won then 17/2 else -10
    some
      { PredictionID := pending.ID, Market := pending.Market, MarketType := "",
        Direction := pending.Direction, EntryPrice := pending.EntryPrice,
        ExitPrice := currentPrice, EntryTime := pending.EntryTime, ExitTime := exitTime,
        Duration := pending.Duration, Confidence := pending.Confidence, Won := won,
        ProfitLoss := profitLoss, PriceChange := priceChange }

/-- `strategy.IsForexMarket` (forex.go): the instrument id, uppercased,
    must contain at least two distinct currency codes. -/
def IsForexMarket (market : String) : Bool :=
  let m := strToUpper market
  let forexPairs : List String :=
    [("AUD"), ("EUR"), ("GBP"), ("USD"), ("JPY"), ("CHF"), ("CAD"), ("NZD")]
  forexPairs.any (fun currency =>
    strContains m currency && decide (2 ≤ (forexPairs.filter (fun curr => strContains m curr)).length))

/-- `strategy.IsCrashBoomMarket` (crash_boom.go). -/
def IsCrashBoomMarket (market : String) : Bool :=
  let m := strToLower market
  strContains m ("crash") || strContains m ("boom")

/-- `strategy.IsVolatilityMarket` (volatility.go). -/
def IsVolatilityMarket (market : String) : Bool :=
  let m := strToLower market
  strContains m ("volatility") || strContains m ("v10") || strContains m ("v25") ||
    strContains m ("v50") || strContains m ("v75") || strContains m ("v100")

/-- `CombinedStrategy.getMarketType` (combined.go). -/
def getMarketType (market : String) : String :=
  if IsForexMarket market then ("forex")
  else if IsCrashBoomMarket market then ("crash_boom")
  else if IsVolatilityMarket market then ("volatility")
  else ("unknown")

/-- `CombinedStrategy.getMinimumRequired` (combined.go). -/
def getMinimumRequired (duration : ℤ) (marketType : String) : ℤ :=
  if marketType = ("forex") then
    if duration ≤ 900 then 200
    else if duration ≤ 1800 then 250
    else 300
  else
    if duration ≤ 30 then 50
    else if duration ≤ 60 then 60
    else if duration ≤ 120 then 75
    else 90

/-- The stale-price pre-filter of `CombinedStrategy.isMarketTradeable`:
    the last ten prices all within 0.01% of the first of them. -/
def recentPricesAllSame (ticks : List Tick) : Bool :=
  let recentPrices := ticks.drop (ticks.length - 10)
  let firstPrice := (recentPrices.headD dummyTick).Price
  recentPrices.all (fun t => decide (|t.Price - firstPrice| ≤ firstPrice * (1/10000)))

/-- `CombinedStrategy.isMarketTradeable` (combined.go). -/
def isMarketTradeable (inds : Indicators) (ticks : List Tick) (marketType : String) : Bool :=
  if 10 ≤ ticks.length ∧ recentPricesAllSame ticks then false
  else if marketType = ("forex") then
    if inds.Volatility > inds.BBMiddle * (2/100) then false
    else if inds.RSI > 48 ∧ inds.RSI < 52 ∧ |inds.Momentum| < 8/10000 then false
    else if (inds.BBUpper - inds.BBLower) / inds.BBMiddle > 4/100 then false
    else true
  else
    if inds.Volatility > inds.BBMiddle * (25/1000) then false
    else if inds.RSI > 45 ∧ inds.RSI < 55 ∧ |inds.Momentum| < 1/1000 then false
    else if (inds.BBUpper - inds.BBLower) / inds.BBMiddle > 5/100 then false
    else true

/-- `CombinedStrategy.getMarketConditionReason` (combined.go). -/
def getMarketConditionReason (inds : Indicators) (marketType : String) : String :=
  if marketType = ("forex") then
    if inds.Volatility > inds.BBMiddle * (2/100) then
      ("Forex volatility too high (") ++ fmt1 inds.Volatility ++ (")")
    else if inds.RSI > 48 ∧ inds.RSI < 52 then
      ("Forex market in neutral zone")
    else if (inds.BBUpper - inds.BBLower) / inds.BBMiddle > 4/100 then
      ("Forex BB too wide - uncertain market")
    else
      ("Poor market conditions for trading")
  else
    ("Poor market conditions for trading")

/-- The vote count (`upVotes`/`downVotes`) of `marketAwareConsensus` for a
    direction. -/
def signalVotes (signals : List StrategySignal) (dir : String) : ℕ :=
  (signals.filter (fun s => s.Direction == dir)).length

/-- The accumulated `confidence × weight` of `marketAwareConsensus` for a
    direction. -/
def signalConfidenceSum (signals : List StrategySignal) (dir : String) : ℚ :=
  ((signals.filter (fun s => s.Direction == dir)).map
    (fun s => s.Confidence * s.Weight)).sum

/-- The accumulated weight of `marketAwareConsensus` for a direction. -/
def signalWeightSum (signals : List StrategySignal) (dir : String) : ℚ :=
  ((signals.filter (fun s => s.Direction == dir)).map (fun s => s.Weight)).sum

/-- The per-signal reason strings of `marketAwareConsensus` for a direction. -/
def signalReasons (signals : List StrategySignal) (dir : String) : List String :=
  (signals.filter (fun s => s.Direction == dir)).map
    (fun s => s.Name ++ ("(") ++ fmt0 (s.Confidence * 100) ++ ("%)"))

/-- `CombinedStrategy.noPrediction` (combined.go). -/
def noPrediction (base : Prediction) (reason : String) : Prediction :=
  { base with Direction := ("NONE"), Confidence := 0, Reason := reason }

/-- `CombinedStrategy.marketSpecificFilters` (combined.go). -/
def marketSpecificFilters (inds : Indicators) (confidence : ℚ) (signalCount : ℕ)
    (direction : String) (marketType : String) : Bool × String :=
  if signalCount < 2 then
    (false, ("need at least ") ++ toString (2 : ℤ) ++ (" agreeing strategies"))
  else
    let minConf : ℚ := if marketType = ("synthetics") then 7/10 else 68/100
    if confidence < minConf then
      (false, ("confidence ") ++ fmt1 (confidence * 100) ++ ("% too low"))
    else if |inds.EMA9 - inds.EMA21| < inds.BBMiddle * (15/10000) then
      (false, ("EMAs too close - no clear trend"))
    else if marketType = ("forex") then
      if direction = ("UP") ∧ inds.RSI > 72 then
        (false, ("RSI too high for forex UP (") ++ fmt1 inds.RSI ++ (")"))
      else if direction = ("DOWN") ∧ inds.RSI < 28 then
        (false, ("RSI too low for forex DOWN (") ++ fmt1 inds.RSI ++ (")"))
      else if direction = ("UP") ∧ inds.Momentum < -(3/1000) then
        (false, ("momentum contradicts forex UP signal"))
      else if direction = ("DOWN") ∧ inds.Momentum > 3/1000 then
        (false, ("momentum contradicts forex DOWN signal"))
      else if inds.Volatility > inds.BBMiddle * (25/1000) then
        (false, ("forex volatility too high"))
      else (true, (""))
    else
      if direction = ("UP") ∧ inds.RSI > 70 then
        (false, ("RSI too high for synthetic UP (") ++ fmt1 inds.RSI ++ (")"))
      else if direction = ("DOWN") ∧ inds.RSI < 30 then
        (false, ("RSI too low for synthetic DOWN (") ++ fmt1 inds.RSI ++ (")"))
      else if direction = ("UP") ∧ inds.BBPosition > 1/2 then
        (false, ("price too high in BB range for UP"))
      else if direction = ("DOWN") ∧ inds.BBPosition < -(1/2) then
        (false, ("price too low in BB range for DOWN"))
      else if direction = ("UP") ∧ inds.Momentum < -(2/1000) then
        (false, ("momentum contradicts synthetic UP signal"))
      else if direction = ("DOWN") ∧ inds.Momentum > 2/1000 then
        (false, ("momentum contradicts synthetic DOWN signal"))
      else if inds.Volatility > inds.BBMiddle * (3/100) then
        (false, ("synthetic volatility too high"))
      else (true, (""))

/-- The vote-and-agreement step of `marketAwareConsensus`: the computed
    `(finalDirection, finalConfidence, finalReasons, voteRatio)` locals. -/
def consensusOutcome (signals : List StrategySignal) (requiredAgreement : ℚ) :
    String × ℚ × List String × ℚ :=
  let upVotes := signalVotes signals ("UP")
  let downVotes := signalVotes signals ("DOWN")
  let totalVotes := upVotes + downVotes
  if upVotes > downVotes then
    let r := (upVotes : ℚ) / (totalVotes : ℚ)
    if r ≥ requiredAgreement then
      (("UP"), signalConfidenceSum signals ("UP") / signalWeightSum signals ("UP"),
        signalReasons signals ("UP"), r)
    else (("NONE"), 0, [], r)
  else if downVotes > upVotes then
    let r := (downVotes : ℚ) / (totalVotes : ℚ)
    if r ≥ requiredAgreement then
      (("DOWN"), signalConfidenceSum signals ("DOWN") / signalWeightSum signals ("DOWN"),
        signalReasons signals ("DOWN"), r)
    else (("NONE"), 0, [], r)
  else (("NONE"), 0, [], 0)

/-- `CombinedStrategy.marketAwareConsensus` (combined.go). -/
def marketAwareConsensus (config : StrategyConfig) (signals : List StrategySignal)
    (basePrediction : Prediction) (marketType : String) : Prediction :=
  let upVotes := signalVotes signals ("UP")
  let downVotes := signalVotes signals ("DOWN")
  let totalVotes := upVotes + downVotes
  if totalVotes = 0 then noPrediction basePrediction ("No directional signals")
  else
    let requiredAgreement : ℚ := if marketType = ("forex") then 7/10 else 3/4
    let outcome := consensusOutcome signals requiredAgreement
    let finalDirection := outcome.1
    let finalConfidence := outcome.2.1
    let finalReasons := outcome.2.2.1
    let voteShare := outcome.2.2.2
    if finalDirection = ("NONE") then
      noPrediction basePrediction
        (("Weak consensus: ") ++ toString upVotes ++ (" UP vs ") ++ toString downVotes ++
          (" DOWN (need ") ++ fmt0 (requiredAgreement * 100) ++ ("% agreement)"))
    else
      let filterOutcome := marketSpecificFilters basePrediction.Indicators finalConfidence
        signals.length finalDirection marketType
      if !filterOutcome.1 then
        noPrediction basePrediction (("Failed filters: ") ++ filterOutcome.2)
      else
        let minConfidence : ℚ := if marketType = ("forex") then 68/100 else config.MinConfidence
        if finalConfidence < minConfidence then
          noPrediction basePrediction
            (("Confidence ") ++ fmt1 (finalConfidence * 100) ++ ("% below ") ++
              fmt1 (minConfidence * 100) ++ ("% threshold"))
        else
          { basePrediction with
            Direction := finalDirection,
            Confidence := finalConfidence,
            Reason := ("[") ++ marketType ++ ("] ") ++
              toString (goTruncQ (voteShare * (totalVotes : ℚ))) ++ ("/") ++
              toString totalVotes ++ (" strategies agree ") ++ finalDirection ++
              (" (") ++ fmt0 (voteShare * 100) ++ ("%): ") ++ toString finalReasons }

/-- `strategy.CombinedStrategy`. The three per-category signal generators
    (`volatility.go`, `crash_boom.go`, `forex.go` — heuristic scoring over
    the indicator snapshot) are carried as function-valued fields: every
    property proved below holds for every possible analyzer output, and so
    in particular for the concrete generators of the source. -/
structure CombinedStrategy where
  config : StrategyConfig
  volatilityAnalyze : List Tick → Indicators → List StrategySignal
  crashBoomAnalyze : List Tick → Indicators → String → List StrategySignal
  forexAnalyze : List Tick → Indicators → List StrategySignal

/-- `CombinedStrategy.GeneratePrediction` (combined.go). Callers guarantee
    `ticks` non-empty (Go would panic on the last-element access otherwise). -/
def GeneratePrediction (s : CombinedStrategy) (market : String) (ticks : List Tick)
    (duration : ℤ) : Prediction :=
  let prediction : Prediction :=
    { ID := (""), Market := market, MarketType := (""), Direction := ("NONE"),
      Confidence := 0, Reason := (""), CurrentPrice := 0, Duration := duration,
      Timestamp := (ticks.getLastD dummyTick).Timestamp, Indicators := emptyIndicators,
      DataPoints := ticks.length }
  let marketType := getMarketType market
  let minRequired := getMinimumRequired duration marketType
  if (ticks.length : ℤ) < minRequired then
    { prediction with
      Reason := ("Collecting data: ") ++ toString ticks.length ++ ("/") ++
        toString minRequired ++ (" ticks needed"),
      Confidence := 0 }
  else
    let inds := CalculateAllIndicators ticks s.config
    let prediction := { prediction with
      Indicators := inds, CurrentPrice := (ticks.getLastD dummyTick).Price }
    if !isMarketTradeable inds ticks marketType then
      { prediction with Reason := getMarketConditionReason inds marketType, Confidence := 0 }
    else if marketType = ("volatility") ∨ marketType = ("crash_boom") ∨
        marketType = ("forex") then
      let allSignals :=
        if marketType = ("volatility") then s.volatilityAnalyze ticks inds
        else if marketType = ("crash_boom") then s.crashBoomAnalyze ticks inds market
        else s.forexAnalyze ticks inds
      if allSignals.isEmpty then
        { prediction with Reason := ("No trading signals generated"), Confidence := 0 }
      else
        marketAwareConsensus s.config allSignals prediction marketType
    else
      { prediction with Reason := ("Unknown market type") }

/-- `predictor.getMarketTypeHelper` (engine.go). -/
def getMarketTypeHelper (market : String) : String :=
  let m := strToLower market
  if strContains m ("frx") || strContains m ("aud") || strContains m ("eur") ||
      strContains m ("gbp") || strContains m ("usd") || strContains m ("jpy") ||
      strContains m ("chf") || strContains m ("cad") then ("forex")
  else if strContains m ("crash") || strContains m ("boom") then ("crash_boom")
  else ("volatility")

/-- `predictor.CachedPrediction` (engine.go). -/
structure CachedPrediction where
  Prediction : Prediction
  Timestamp : ℤ
  deriving Repr, DecidableEq

/-- The engine state touched by the modelled `Predict` path: the tick
    store and latest-price view (`storage.MemoryStorage`), the prediction
    cache, and the rate-limiter counters. Go's maps are modelled as
    functions with pointwise update (a missing key reads the zero value). -/
structure EngineState where
  ticks : String → List Tick
  latestPrice : String → ℚ
  cache : String → Option CachedPrediction
  requestCounter : String → ℤ
  lastCounterReset : ℤ

/-- `Engine.getCacheTimeout` (engine.go). -/
def getCacheTimeout (duration : ℤ) : ℤ :=
  if duration ≤ 60 then 5 * nanosPerSecond
  else if duration ≤ 300 then 10 * nanosPerSecond
  else if duration ≤ 900 then 20 * nanosPerSecond
  else 30 * nanosPerSecond

/-- `Engine.estimateTickRate` (engine.go). -/
def estimateTickRate (marketType : String) : ℤ :=
  if marketType = ("forex") then 2
  else if marketType = ("volatility") then 60
  else if marketType = ("crash_boom") then 30
  else 10

/-- The effective per-minute cap of `Engine.checkRateLimit`
    (`config.Risk.MaxPredictionsPerMinute`, defaulting to 10). -/
def maxPerMinute (cfg : Config) : ℤ :=
  if 0 < cfg.Risk.MaxPredictionsPerMinute then cfg.Risk.MaxPredictionsPerMinute else 10

/-- `Engine.checkRateLimit` (engine.go): returns whether the request is
    admitted, together with the updated counter state. -/
def checkRateLimit (cfg : Config) (st : EngineState) (market : String) (now : ℤ) :
    Bool × EngineState :=
  let st1 :=
    if now - st.lastCounterReset > 60 * nanosPerSecond then
      { st with requestCounter := fun _ => 0, lastCounterReset := now }
    else st
  let count := st1.requestCounter market
  if count ≥ maxPerMinute cfg then (false, st1)
  else
    (true, { st1 with
      requestCounter := fun m => if m = market then count + 1 else st1.requestCounter m })

/-- The cache key of `Engine.Predict`: `fmt.Sprintf("%s-%d", market, duration)`. -/
def predictCacheKey (market : String) (duration : ℤ) : String :=
  market ++ ("-") ++ toString duration

/-- The compute path of `Engine.Predict` (engine.go), after the rate-limit
    gate and the cache probe: candle aggregation, validation, strategy
    invocation, the abundant-data confidence boost, and caching of the
    computed prediction. `now` is the call's clock reading and `freshId`
    the UUID drawn for an accepted prediction (the tracker side effect of
    a directional prediction touches only tracker storage, which is not
    part of the modelled state). -/
def predictCompute (cfg : Config) (strat : CombinedStrategy) (st : EngineState)
    (market : String) (duration : ℤ) (now : ℤ) (freshId : String) :
    Except String Prediction × EngineState :=
  let marketType := getMarketTypeHelper market
  let tfConfig := GetTimeframeConfig duration marketType
  let ticks := st.ticks market
  let minRequired := GetMinimumTicksRequired tfConfig marketType
  if (ticks.length : ℤ) < minRequired then
    let ticksPerMin := estimateTickRate marketType
    let minutesNeeded0 := Int.tdiv (minRequired - ticks.length) ticksPerMin
    let minutesNeeded := if minutesNeeded0 < 1 then 1 else minutesNeeded0
    (Except.ok
      { ID := (""), Market := market, MarketType := marketType, Direction := ("NONE"),
        Confidence := 0,
        Reason := ("Collecting data: ") ++ toString ticks.length ++ ("/") ++
          toString minRequired ++ (" ticks (~") ++ toString minutesNeeded ++
          (" min remaining)"),
        CurrentPrice := 0, Duration := duration, Timestamp := now,
        Indicators := emptyIndicators, DataPoints := ticks.length }, st)
  else
    let candleData := TicksToCandles ticks tfConfig.CandlePeriod
    let validation := ValidateCandles candleData tfConfig.MinCandles
    if !validation.1 then
      (Except.ok
        { ID := (""), Market := market, MarketType := marketType, Direction := ("NONE"),
          Confidence := 0,
          Reason := ("Data quality issue: ") ++ validation.2 ++ (" (candles: ") ++
            toString candleData.length ++ ("/") ++ toString tfConfig.MinCandles ++ (")"),
          CurrentPrice := 0, Duration := duration, Timestamp := now,
          Indicators := emptyIndicators, DataPoints := ticks.length }, st)
    else
      let candleTicks := CandlesToTicks candleData
      let prediction0 := GeneratePrediction strat market candleTicks duration
      let prediction1 := { prediction0 with ID := freshId, MarketType := marketType }
      let prediction2 :=
        if (candleData.length : ℤ) ≥ tfConfig.MinCandles * 2 then
          let boosted := prediction1.Confidence * (105/100)
          { prediction1 with
            Confidence := if boosted > 95/100 then 95/100 else boosted }
        else prediction1
      (Except.ok prediction2,
        { st with cache := fun k =>
            if k = predictCacheKey market duration then some ⟨prediction2, now⟩
            else st.cache k })

/-- The cache probe of `Engine.Predict`: a hit only when the stored
    entry's age is strictly below the horizon-scaled timeout. -/
def cacheProbe (st : EngineState) (market : String) (duration : ℤ) (now : ℤ) :
    Option Prediction :=
  match st.cache (predictCacheKey market duration) with
  | some cached =>
      if now - cached.Timestamp < getCacheTimeout duration then some cached.Prediction
      else none
  | none => none

/-- `Engine.Predict` (engine.go): rate-limit gate, cache probe, then the
    compute path. -/
def Predict (cfg : Config) (strat : CombinedStrategy) (st : EngineState)
    (market : String) (duration : ℤ) (now : ℤ) (freshId : String) :
    Except String Prediction × EngineState :=
  let rl := checkRateLimit cfg st market now
  if !rl.1 then
    (Except.error (("rate limit exceeded for ") ++ market), rl.2)
  else
    let st1 := rl.2
    match cacheProbe st1 market duration now with
    | some p => (Except.ok p, st1)
    | none => predictCompute cfg strat st1 market duration now freshId

/-- A prediction is a well-formed "no trade" outcome whenever a neutral
    direction comes with zero confidence and a human-readable (non-empty)
    reason. -/
def NeutralOk (p : Prediction) : Prop :=
  p.Direction = ("NONE") → p.Confidence = 0 ∧ p.Reason ≠ ("")

/-! ## Helper lemmas -/

theorem str_append_ne_empty (a b : String) (h : a ≠ ("")) : a ++ b ≠ ("") := by
  intro hab
  apply h
  have hd : a.data ++ b.data = ([] : List Char) := by
    have := congrArg String.data hab
    rwa [String.data_append] at this
  have ha : a.data = [] := (List.append_eq_nil.mp hd).1
  cases a with
  | mk d =>
    have hd2 : d = [] := ha
    subst hd2
    rfl

theorem ratSqrt_nonneg (q : ℚ) : 0 ≤ ratSqrt q := by
  unfold ratSqrt
  split
  · exact le_refl 0
  · positivity

theorem bbPosition_bounds (price : ℚ) (bb : BollingerBands) :
    -1 ≤ CalculateBBPosition price bb ∧ CalculateBBPosition price bb ≤ 1 := by
  unfold CalculateBBPosition
  by_cases h1 : bb.Upper = bb.Lower
  · simp [h1]
  · simp only [h1, if_false]
    by_cases h2 : (price - bb.Middle) / (bb.Upper - bb.Middle) > 1
    · simp [h2]
    · by_cases h3 : (price - bb.Middle) / (bb.Upper - bb.Middle) < -1
      · simp [h2, h3]
      · simp [h2, h3]
        push_neg at h2 h3
        exact ⟨h3, h2⟩

/-! ## Claim theorems -/

/-- Claim C9: for every price and every BollingerBands value produced by
    `CalculateBollingerBands`, `CalculateBBPosition` returns a value in
    `[-1, 1]` (values are clamped), and degenerate bands
    (`Upper = Lower`) yield `0`. -/
theorem bbPosition_in_range :
    (∀ (price : ℚ) (ticks : List Tick) (period : ℤ) (mult : ℚ),
      -1 ≤ CalculateBBPosition price (CalculateBollingerBands ticks period mult) ∧
        CalculateBBPosition price (CalculateBollingerBands ticks period mult) ≤ 1) ∧
    (∀ (price : ℚ) (bb : BollingerBands), bb.Upper = bb.Lower →
      CalculateBBPosition price bb = 0) := by
  constructor
  · intro price ticks period mult
    exact bbPosition_bounds price (CalculateBollingerBands ticks period mult)
  · intro price bb h
    simp [CalculateBBPosition, h]

/-- Witness for C9 at a concrete degenerate band. -/
theorem bbPosition_in_range_witness :
    (BollingerBands.mk 2 1 2).Upper = (BollingerBands.mk 2 1 2).Lower ∧
      CalculateBBPosition 5 (BollingerBands.mk 2 1 2) = 0 :=
  ⟨rfl, bbPosition_in_range.2 5 (BollingerBands.mk 2 1 2) rfl⟩

/-- Claim C3: at settlement of a pending prediction with an available exit
    price, `checkResultLater` produces a result whose `Won` is true exactly
    when (UP and exit > entry) or (DOWN and exit < entry), whose
    `PriceChange` is exit minus entry, and whose `ProfitLoss` is the fixed
    stake-and-payout amount: the fixed loss `-10` when lost, the fixed
    profit `8.5` when won. -/
theorem checkResultLater_settlement (pending : PendingPrediction) (price : ℚ) (exitTime : ℤ)
    (h : price ≠ 0) :
    ∃ r, checkResultLater pending price exitTime = some r ∧
      (r.Won = true ↔ ((pending.Direction = ("UP") ∧ pending.EntryPrice < price) ∨
        (pending.Direction = ("DOWN") ∧ price < pending.EntryPrice))) ∧
      r.PriceChange = price - pending.EntryPrice ∧
      r.EntryPrice = pending.EntryPrice ∧
      r.ExitPrice = price ∧
      r.ProfitLoss = (if r.Won then (17/2 : ℚ) else -10) := by
  unfold checkResultLater
  rw [if_neg h]
  refine ⟨_, rfl, ?_, rfl, rfl, rfl, rfl⟩
  constructor
  · intro hw
    by_cases hup : pending.Direction = ("UP") ∧ price > pending.EntryPrice
    · exact Or.inl ⟨hup.1, hup.2⟩
    · by_cases hdn : pending.Direction = ("DOWN") ∧ price < pending.EntryPrice
      · exact Or.inr hdn
      · rw [if_neg hup, if_neg hdn] at hw
        exact absurd hw (by simp)
  · intro hcases
    by_cases hup : pending.Direction = ("UP") ∧ price > pending.EntryPrice
    · rw [if_pos hup]
    · rw [if_neg hup]
      rcases hcases with ⟨hd, hlt⟩ | ⟨hd, hlt⟩
      · exact absurd ⟨hd, hlt⟩ hup
      · rw [if_pos ⟨hd, hlt⟩]

/-- Witness for C3: the spec's example — entry 100, exit 101: direction UP
    wins with price change +1, direction DOWN loses with the same prices. -/
theorem checkResultLater_settlement_witness :
    (∃ r, checkResultLater ⟨("p1"), ("m"), (""), ("UP"), 100, 0, 60, 7/10, 60⟩ 101 60 = some r ∧
      r.Won = true ∧ r.PriceChange = 1 ∧ r.ProfitLoss = 17/2) ∧
    (∃ r, checkResultLater ⟨("p2"), ("m"), (""), ("DOWN"), 100, 0, 60, 7/10, 60⟩ 101 60 = some r ∧
      r.Won = false ∧ r.PriceChange = 1 ∧ r.ProfitLoss = -10) := by
  constructor
  · obtain ⟨r, hr, hwon, hpc, _, _, hpl⟩ :=
      checkResultLater_settlement ⟨("p1"), ("m"), (""), ("UP"), 100, 0, 60, 7/10, 60⟩ 101 60
        (by norm_num)
    have hw : r.Won = true := hwon.mpr (Or.inl ⟨rfl, by norm_num⟩)
    refine ⟨r, hr, hw, ?_, ?_⟩
    · rw [hpc]; norm_num
    · rw [hpl, if_pos hw]
  · obtain ⟨r, hr, hwon, hpc, _, _, hpl⟩ :=
      checkResultLater_settlement ⟨("p2"), ("m"), (""), ("DOWN"), 100, 0, 60, 7/10, 60⟩ 101 60
        (by norm_num)
    have hw : r.Won = false := by
      rcases Bool.eq_false_or_eq_true r.Won with h | h
      · rcases hwon.mp h with ⟨hd, _⟩ | ⟨_, hlt⟩
        · exact absurd hd (by simp)
        · exact absurd hlt (by norm_num)
      · exact h
    refine ⟨r, hr, hw, ?_, ?_⟩
    · rw [hpc]; norm_num
    · rw [hpl, hw]
      simp

theorem rsiActualPeriod_ge_five (ticks : List Tick) (period : ℤ) :
    5 ≤ rsiActualPeriod ticks period := by
  simp only [rsiActualPeriod]
  split_ifs <;> omega

theorem rsiAvgGain_nonneg (ticks : List Tick) (period : ℤ) : 0 ≤ rsiAvgGain ticks period := by
  unfold rsiAvgGain
  apply div_nonneg
  · apply List.sum_nonneg
    intro x hx
    simp only [List.mem_map] at hx
    obtain ⟨c, _, rfl⟩ := hx
    exact le_max_right c 0
  · have := rsiActualPeriod_ge_five ticks period
    positivity

theorem rsiAvgLoss_nonneg (ticks : List Tick) (period : ℤ) : 0 ≤ rsiAvgLoss ticks period := by
  unfold rsiAvgLoss
  apply div_nonneg
  · apply List.sum_nonneg
    intro x hx
    simp only [List.mem_map] at hx
    obtain ⟨c, _, rfl⟩ := hx
    exact le_max_right (-c) 0
  · have := rsiActualPeriod_ge_five ticks period
    positivity

/-- Claim C6 (amended): `CalculateRSI` always returns a value in `[0, 100]`;
    it returns the neutral value 50 exactly at the code's data floor, namely
    fewer than `period/2` samples (for the standard period 14 this means
    fewer than 7 samples — not "fewer than 5 samples" as claimed, see the
    counterexample); and it returns 100 whenever the guard admits the window
    and the computed average loss is zero while the average gain is positive. -/
theorem rsi_range_amended (ticks : List Tick) (period : ℤ) :
    (0 ≤ CalculateRSI ticks period ∧ CalculateRSI ticks period ≤ 100) ∧
    ((ticks.length : ℤ) < Int.tdiv period 2 → CalculateRSI ticks period = 50) ∧
    (¬ (ticks.length : ℤ) < Int.tdiv period 2 → rsiAvgLoss ticks period = 0 →
      0 < rsiAvgGain ticks period → CalculateRSI ticks period = 100) := by
  refine ⟨?_, ?_, ?_⟩
  · unfold CalculateRSI
    split_ifs with h1
    · norm_num
    · by_cases h2 : rsiAvgLoss ticks period = 0
      · rw [if_pos h2]
        by_cases h3 : rsiAvgGain ticks period > 0
        · rw [if_pos h3]; norm_num
        · rw [if_neg h3]; norm_num
      rw [if_neg h2]
      have hL : 0 ≤ rsiAvgLoss ticks period := rsiAvgLoss_nonneg ticks period
      have hG : 0 ≤ rsiAvgGain ticks period := rsiAvgGain_nonneg ticks period
      have hrs : 0 ≤ rsiAvgGain ticks period / rsiAvgLoss ticks period := by
        rcases lt_or_le 0 (rsiAvgLoss ticks period) with hpos | hneg
        · exact div_nonneg hG hL
        · exact div_nonneg hG hL
      have hden : (0:ℚ) < 1 + rsiAvgGain ticks period / rsiAvgLoss ticks period := by linarith
      have hx : 0 < 100 / (1 + rsiAvgGain ticks period / rsiAvgLoss ticks period) := by
        positivity
      have hx2 : 100 / (1 + rsiAvgGain ticks period / rsiAvgLoss ticks period) ≤ 100 := by
        rw [div_le_iff hden]
        nlinarith
      constructor <;> linarith
  · intro h
    unfold CalculateRSI
    rw [if_pos h]
  · intro h hloss hgain
    unfold CalculateRSI
    rw [if_neg h, if_pos hloss, if_pos hgain]

/-- Counterexample to C6 as stated: three increasing samples (fewer than 5)
    with the period 5 pass the code's `period/2` data floor and produce
    RSI = 100, not the claimed neutral 50. -/
theorem rsi_data_floor_counterexample :
    ([(⟨("m"), 1, 0, 0⟩ : Tick), ⟨("m"), 2, 1, 0⟩, ⟨("m"), 3, 2, 0⟩].length < 5) ∧
    CalculateRSI [⟨("m"), 1, 0, 0⟩, ⟨("m"), 2, 1, 0⟩, ⟨("m"), 3, 2, 0⟩] 5 = 100 ∧
    CalculateRSI [⟨("m"), 1, 0, 0⟩, ⟨("m"), 2, 1, 0⟩, ⟨("m"), 3, 2, 0⟩] 5 ≠ 50 := by
  have h52 : Int.tdiv 5 2 = 2 := by decide
  refine ⟨by norm_num, ?_, ?_⟩ <;>
    norm_num [CalculateRSI, rsiAvgGain, rsiAvgLoss, rsiWindow, rsiStartIdx, rsiActualPeriod,
      priceChanges, max_def, h52]

/-- Witness for C6 (amended) at the standard period 14 with an empty window. -/
theorem rsi_range_amended_witness :
    (([] : List Tick).length : ℤ) < Int.tdiv 14 2 ∧ CalculateRSI [] 14 = 50 :=
  ⟨by decide, (rsi_range_amended [] 14).2.1 (by decide)⟩

/-- Claim C8 (amended): the Bollinger bands satisfy Lower ≤ Middle ≤ Upper
    for every tick list and period, provided the standard-deviation
    multiplier is nonnegative and the tick prices are nonnegative (the
    price condition matters only for the fixed ±3% fallback band around
    the current price used below 5 samples; the multiplier condition is
    forced by the counterexample below). The empty-input zero bands are
    covered. -/
theorem band_order_of_nonneg (mid s d : ℚ) (hs : 0 ≤ s) (hd : 0 ≤ d) :
    mid - s * d ≤ mid ∧ mid ≤ mid + s * d :=
  ⟨by nlinarith, by nlinarith⟩

theorem fallback_band_order (p : ℚ) (hp : 0 ≤ p) :
    p * (97/100) ≤ p ∧ p ≤ p * (103/100) :=
  ⟨by nlinarith, by nlinarith⟩

/-- Claim C8 (amended): the Bollinger bands satisfy Lower ≤ Middle ≤ Upper
    for every tick list and period, provided the standard-deviation
    multiplier is nonnegative and the tick prices are nonnegative (the
    price condition matters only for the fixed ±3% fallback band around
    the current price used below 5 samples; the multiplier condition is
    forced by the counterexample below). The empty-input zero bands are
    covered. -/
theorem bollinger_order_amended (ticks : List Tick) (period : ℤ) (stdDev : ℚ)
    (hm : 0 ≤ stdDev) (hp : ∀ t ∈ ticks, 0 ≤ t.Price) :
    (CalculateBollingerBands ticks period stdDev).Lower ≤
      (CalculateBollingerBands ticks period stdDev).Middle ∧
    (CalculateBollingerBands ticks period stdDev).Middle ≤
      (CalculateBollingerBands ticks period stdDev).Upper := by
  by_cases hne : ticks = []
  · subst hne
    simp [CalculateBollingerBands]
  · simp only [CalculateBollingerBands, dif_neg hne]
    by_cases hfall : (ticks.length : ℤ) < period ∧ (ticks.length : ℤ) < 5
    · rw [if_pos hfall]
      exact fallback_band_order _ (hp _ (List.getLast_mem hne))
    · rw [if_neg hfall]
      exact band_order_of_nonneg _ _ _ (ratSqrt_nonneg _) hm

/-- Counterexample to C8 as stated ("for ... every standard-deviation
    multiplier"): five samples with a genuinely positive deviation and the
    multiplier −1 invert the bands (Lower = 4 > Middle = 2 > Upper = 0);
    the variance here is the perfect square 4, so the inversion is exact
    under `math.Sqrt` as well. -/
theorem bollinger_order_counterexample :
    ¬ ((CalculateBollingerBands
          [(⟨("m"), 1, 0, 0⟩ : Tick), ⟨("m"), 1, 1, 0⟩, ⟨("m"), 1, 2, 0⟩,
            ⟨("m"), 1, 3, 0⟩, ⟨("m"), 6, 4, 0⟩] 5 (-1)).Lower ≤
        (CalculateBollingerBands
          [(⟨("m"), 1, 0, 0⟩ : Tick), ⟨("m"), 1, 1, 0⟩, ⟨("m"), 1, 2, 0⟩,
            ⟨("m"), 1, 3, 0⟩, ⟨("m"), 6, 4, 0⟩] 5 (-1)).Middle ∧
        (CalculateBollingerBands
          [(⟨("m"), 1, 0, 0⟩ : Tick), ⟨("m"), 1, 1, 0⟩, ⟨("m"), 1, 2, 0⟩,
            ⟨("m"), 1, 3, 0⟩, ⟨("m"), 6, 4, 0⟩] 5 (-1)).Middle ≤
        (CalculateBollingerBands
          [(⟨("m"), 1, 0, 0⟩ : Tick), ⟨("m"), 1, 1, 0⟩, ⟨("m"), 1, 2, 0⟩,
            ⟨("m"), 1, 3, 0⟩, ⟨("m"), 6, 4, 0⟩] 5 (-1)).Upper) := by
  have hsq : (Int.toNat 4).sqrt = 2 := Nat.sqrt_eq 2
  have hbb : CalculateBollingerBands
      [(⟨("m"), 1, 0, 0⟩ : Tick), ⟨("m"), 1, 1, 0⟩, ⟨("m"), 1, 2, 0⟩,
        ⟨("m"), 1, 3, 0⟩, ⟨("m"), 6, 4, 0⟩] 5 (-1) = ⟨0, 2, 4⟩ := by
    norm_num [CalculateBollingerBands, CalculateSMA, ratSqrt, hsq, Int.toNat_ofNat,
      List.cons_ne_nil]
  rw [hbb]
  norm_num

/-- Witness for C8 (amended) on the single-sample fallback band:
    Lower = 97 ≤ Middle = 100 ≤ Upper = 103. -/
theorem bollinger_order_amended_witness :
    (0:ℚ) ≤ 2 ∧
    (CalculateBollingerBands [(⟨("m"), 100, 0, 0⟩ : Tick)] 20 2).Lower ≤
      (CalculateBollingerBands [(⟨("m"), 100, 0, 0⟩ : Tick)] 20 2).Middle ∧
    (CalculateBollingerBands [(⟨("m"), 100, 0, 0⟩ : Tick)] 20 2).Middle ≤
      (CalculateBollingerBands [(⟨("m"), 100, 0, 0⟩ : Tick)] 20 2).Upper :=
  ⟨by norm_num,
    bollinger_order_amended [⟨("m"), 100, 0, 0⟩] 20 2 (by norm_num)
      (by intro t ht; rw [List.mem_singleton] at ht; subst ht; norm_num)⟩

theorem updateCandle_Timestamp (c : Candle) (t : Tick) :
    (updateCandle c t).Timestamp = c.Timestamp := rfl

theorem foldl_updateCandle_Open (l : List Tick) (c : Candle) :
    (l.foldl updateCandle c).Open = c.Open := by
  induction l generalizing c with
  | nil => rfl
  | cons t ts ih => exact ih (updateCandle c t)

theorem foldl_updateCandle_Market (l : List Tick) (c : Candle) :
    (l.foldl updateCandle c).Market = c.Market := by
  induction l generalizing c with
  | nil => rfl
  | cons t ts ih => exact ih (updateCandle c t)

theorem foldl_updateCandle_Timestamp (l : List Tick) (c : Candle) :
    (l.foldl updateCandle c).Timestamp = c.Timestamp := by
  induction l generalizing c with
  | nil => rfl
  | cons t ts ih => exact ih (updateCandle c t)

theorem foldl_updateCandle_Volume (l : List Tick) (c : Candle) :
    (l.foldl updateCandle c).Volume = c.Volume + l.length := by
  induction l generalizing c with
  | nil => simp
  | cons t ts ih =>
    simp only [List.foldl_cons]
    rw [ih (updateCandle c t)]
    simp only [updateCandle, List.length_cons]
    push_cast
    ring

theorem foldl_updateCandle_Close (l : List Tick) (c : Candle) :
    (l.foldl updateCandle c).Close = (l.map Tick.Price).getLastD c.Close := by
  induction l generalizing c with
  | nil => rfl
  | cons t ts ih =>
    simp only [List.foldl_cons, List.map_cons, List.getLastD_cons]
    exact ih (updateCandle c t)

theorem gt_ite_eq_max (h p : ℚ) : (if p > h then p else h) = max h p := by
  rcases le_or_lt p h with hle | hlt
  · rw [if_neg (not_lt.mpr hle), max_eq_left hle]
  · rw [if_pos hlt, max_eq_right (le_of_lt hlt)]

theorem lt_ite_eq_min (h p : ℚ) : (if p < h then p else h) = min h p := by
  rcases le_or_lt h p with hle | hlt
  · rw [if_neg (not_lt.mpr hle), min_eq_left hle]
  · rw [if_pos hlt, min_eq_right (le_of_lt hlt)]

theorem foldl_updateCandle_High (l : List Tick) (c : Candle) :
    (l.foldl updateCandle c).High = (l.map Tick.Price).foldl max c.High := by
  induction l generalizing c with
  | nil => rfl
  | cons t ts ih =>
    simp only [List.foldl_cons, List.map_cons]
    rw [ih (updateCandle c t)]
    congr 1
    exact gt_ite_eq_max c.High t.Price

theorem foldl_updateCandle_Low (l : List Tick) (c : Candle) :
    (l.foldl updateCandle c).Low = (l.map Tick.Price).foldl min c.Low := by
  induction l generalizing c with
  | nil => rfl
  | cons t ts ih =>
    simp only [List.foldl_cons, List.map_cons]
    rw [ih (updateCandle c t)]
    congr 1
    exact lt_ite_eq_min c.Low t.Price

theorem le_foldl_max (l : List ℚ) (a : ℚ) : a ≤ l.foldl max a := by
  induction l generalizing a with
  | nil => exact le_refl a
  | cons x xs ih => exact le_trans (le_max_left a x) (ih (max a x))

theorem mem_le_foldl_max (l : List ℚ) (a : ℚ) : ∀ x ∈ l, x ≤ l.foldl max a := by
  induction l generalizing a with
  | nil => intro x hx; cases hx
  | cons y ys ih =>
    intro x hx
    rcases List.mem_cons.mp hx with rfl | hmem
    · exact le_trans (le_max_right a x) (le_foldl_max ys (max a x))
    · exact ih (max a y) x hmem

theorem foldl_max_mem (l : List ℚ) (a : ℚ) : l.foldl max a = a ∨ l.foldl max a ∈ l := by
  induction l generalizing a with
  | nil => exact Or.inl rfl
  | cons y ys ih =>
    rcases ih (max a y) with heq | hmem
    · rcases max_choice a y with hc | hc
      · exact Or.inl (by simp only [List.foldl_cons]; rw [heq, hc])
      · exact Or.inr (by simp only [List.foldl_cons]; rw [heq, hc]; exact List.mem_cons_self y ys)
    · exact Or.inr (List.mem_cons_of_mem y hmem)

theorem foldl_min_le (l : List ℚ) (a : ℚ) : l.foldl min a ≤ a := by
  induction l generalizing a with
  | nil => exact le_refl a
  | cons x xs ih => exact le_trans (ih (min a x)) (min_le_left a x)

theorem foldl_min_le_mem (l : List ℚ) (a : ℚ) : ∀ x ∈ l, l.foldl min a ≤ x := by
  induction l generalizing a with
  | nil => intro x hx; cases hx
  | cons y ys ih =>
    intro x hx
    rcases List.mem_cons.mp hx with rfl | hmem
    · exact le_trans (foldl_min_le ys (min a x)) (min_le_right a x)
    · exact ih (min a y) x hmem

theorem foldl_min_mem (l : List ℚ) (a : ℚ) : l.foldl min a = a ∨ l.foldl min a ∈ l := by
  induction l generalizing a with
  | nil => exact Or.inl rfl
  | cons y ys ih =>
    rcases ih (min a y) with heq | hmem
    · rcases min_choice a y with hc | hc
      · exact Or.inl (by simp only [List.foldl_cons]; rw [heq, hc])
      · exact Or.inr (by simp only [List.foldl_cons]; rw [heq, hc]; exact List.mem_cons_self y ys)
    · exact Or.inr (List.mem_cons_of_mem y hmem)

theorem ticksToCandlesLoop_same_bucket (period : ℤ) (rest : List Tick) :
    ∀ (acc : List Candle) (cur : Candle),
      (∀ u ∈ rest, truncateTime u.Timestamp period = cur.Timestamp) →
      ticksToCandlesLoop period rest acc cur = acc ++ [rest.foldl updateCandle cur] := by
  induction rest with
  | nil => intro acc cur _; simp [ticksToCandlesLoop]
  | cons t ts ih =>
    intro acc cur h
    have ht : truncateTime t.Timestamp period = cur.Timestamp := h t (List.mem_cons_self t ts)
    simp only [ticksToCandlesLoop]
    rw [if_pos ht.symm, List.foldl_cons]
    exact ih acc (updateCandle cur t) (fun u hu => (h u (List.mem_cons_of_mem t hu)).trans rfl)

/-- Claim C7: for every non-empty tick list whose timestamps all truncate
    to the same period bucket, `TicksToCandles` returns exactly one candle
    whose Open is the first tick's price, Close the last tick's price,
    High/Low the maximum/minimum tick price, and whose tick count (Volume)
    equals the number of ticks. -/
theorem ticksToCandles_single_bucket (t : Tick) (rest : List Tick) (period : ℤ)
    (h : ∀ u ∈ t :: rest, truncateTime u.Timestamp period = truncateTime t.Timestamp period) :
    ∃ c, TicksToCandles (t :: rest) period = [c] ∧
      c.Open = t.Price ∧
      c.Close = ((t :: rest).map Tick.Price).getLastD 0 ∧
      (∀ u ∈ t :: rest, u.Price ≤ c.High) ∧ (∃ u ∈ t :: rest, c.High = u.Price) ∧
      (∀ u ∈ t :: rest, c.Low ≤ u.Price) ∧ (∃ u ∈ t :: rest, c.Low = u.Price) ∧
      c.Volume = ((t :: rest).length : ℚ) ∧
      c.Timestamp = truncateTime t.Timestamp period ∧
      c.Market = t.Market := by
  have hloop := ticksToCandlesLoop_same_bucket period rest []
    (newCandle t (truncateTime t.Timestamp period))
    (fun u hu => h u (List.mem_cons_of_mem t hu))
  refine ⟨rest.foldl updateCandle (newCandle t (truncateTime t.Timestamp period)), ?_,
    ?_, ?_, ?_, ?_, ?_, ?_, ?_, ?_, ?_⟩
  · simp only [TicksToCandles]
    rw [hloop]
    rfl
  · rw [foldl_updateCandle_Open]
    rfl
  · rw [foldl_updateCandle_Close]
    simp only [List.map_cons, List.getLastD_cons]
    rfl
  · intro u hu
    rw [foldl_updateCandle_High]
    rcases List.mem_cons.mp hu with rfl | hmem
    · exact le_foldl_max (rest.map Tick.Price) u.Price
    · exact mem_le_foldl_max (rest.map Tick.Price) (newCandle t _).High u.Price
        (List.mem_map_of_mem Tick.Price hmem)
  · rw [foldl_updateCandle_High]
    rcases foldl_max_mem (rest.map Tick.Price) (newCandle t (truncateTime t.Timestamp period)).High
      with heq | hmem
    · exact ⟨t, List.mem_cons_self t rest, heq⟩
    · obtain ⟨u, hu, hup⟩ := List.mem_map.mp hmem
      exact ⟨u, List.mem_cons_of_mem t hu, hup.symm⟩
  · intro u hu
    rw [foldl_updateCandle_Low]
    rcases List.mem_cons.mp hu with rfl | hmem
    · exact foldl_min_le (rest.map Tick.Price) u.Price
    · exact foldl_min_le_mem (rest.map Tick.Price) (newCandle t _).Low u.Price
        (List.mem_map_of_mem Tick.Price hmem)
  · rw [foldl_updateCandle_Low]
    rcases foldl_min_mem (rest.map Tick.Price) (newCandle t (truncateTime t.Timestamp period)).Low
      with heq | hmem
    · exact ⟨t, List.mem_cons_self t rest, heq⟩
    · obtain ⟨u, hu, hup⟩ := List.mem_map.mp hmem
      exact ⟨u, List.mem_cons_of_mem t hu, hup.symm⟩
  · rw [foldl_updateCandle_Volume]
    simp only [newCandle, List.length_cons]
    push_cast
    ring
  · rw [foldl_updateCandle_Timestamp]
    rfl
  · rw [foldl_updateCandle_Market]
    rfl

/-- Witness for C7: two ticks inside one 5-second bucket produce the single
    candle ⟨Open 1, High 3, Low 1, Close 3, Volume 2⟩. -/
theorem ticksToCandles_single_bucket_witness :
    (∀ u ∈ [(⟨("m"), 1, 0, 0⟩ : Tick), ⟨("m"), 3, 1, 0⟩],
      truncateTime u.Timestamp (5 * nanosPerSecond) = truncateTime 0 (5 * nanosPerSecond)) ∧
    ∃ c, TicksToCandles [(⟨("m"), 1, 0, 0⟩ : Tick), ⟨("m"), 3, 1, 0⟩] (5 * nanosPerSecond) = [c] ∧
      c.Open = 1 ∧ c.Close = ([(⟨("m"), 1, 0, 0⟩ : Tick), ⟨("m"), 3, 1, 0⟩].map Tick.Price).getLastD 0 ∧
      (∀ u ∈ [(⟨("m"), 1, 0, 0⟩ : Tick), ⟨("m"), 3, 1, 0⟩], u.Price ≤ c.High) ∧
      (∃ u ∈ [(⟨("m"), 1, 0, 0⟩ : Tick), ⟨("m"), 3, 1, 0⟩], c.High = u.Price) ∧
      (∀ u ∈ [(⟨("m"), 1, 0, 0⟩ : Tick), ⟨("m"), 3, 1, 0⟩], c.Low ≤ u.Price) ∧
      (∃ u ∈ [(⟨("m"), 1, 0, 0⟩ : Tick), ⟨("m"), 3, 1, 0⟩], c.Low = u.Price) ∧
      c.Volume = (([(⟨("m"), 1, 0, 0⟩ : Tick), ⟨("m"), 3, 1, 0⟩].length : ℕ) : ℚ) ∧
      c.Timestamp = truncateTime 0 (5 * nanosPerSecond) ∧
      c.Market = ("m") :=
  ⟨by decide, ticksToCandles_single_bucket ⟨("m"), 1, 0, 0⟩ [⟨("m"), 3, 1, 0⟩]
    (5 * nanosPerSecond) (by decide)⟩

theorem ticksToCandlesLoop_volume (period : ℤ) (l : List Tick) :
    ∀ (acc : List Candle) (cur : Candle),
      (∀ c ∈ acc, 1 ≤ c.Volume) → 1 ≤ cur.Volume →
      ∀ c ∈ ticksToCandlesLoop period l acc cur, 1 ≤ c.Volume := by
  induction l with
  | nil =>
    intro acc cur hacc hcur c hc
    simp only [ticksToCandlesLoop] at hc
    rcases List.mem_append.mp hc with hmem | hmem
    · exact hacc c hmem
    · rw [List.mem_singleton.mp hmem]
      exact hcur
  | cons t ts ih =>
    intro acc cur hacc hcur c hc
    simp only [ticksToCandlesLoop] at hc
    split_ifs at hc with hts
    · refine ih acc (updateCandle cur t) hacc ?_ c hc
      simp only [updateCandle]
      linarith
    · refine ih (acc ++ [cur]) (newCandle t (truncateTime t.Timestamp period)) ?_ ?_ c hc
      · intro d hd
        rcases List.mem_append.mp hd with hmem | hmem
        · exact hacc d hmem
        · rw [List.mem_singleton.mp hmem]
          exact hcur
      · exact le_refl 1

theorem ticksToCandles_volume (ticks : List Tick) (period : ℤ) :
    ∀ c ∈ TicksToCandles ticks period, 1 ≤ c.Volume := by
  cases ticks with
  | nil => intro c hc; cases hc
  | cons t rest =>
    exact ticksToCandlesLoop_volume period rest []
      (newCandle t (truncateTime t.Timestamp period))
      (fun c hc => absurd hc (List.not_mem_nil c)) (le_refl 1)

/-- Claim C10: every candle produced by `TicksToCandles` has tick volume at
    least 1 (the first tick of a bucket initialises the volume to 1 and it
    is only incremented), so `ValidateCandles` can never return the
    `(false, "stale_data")` outcome on candles coming from the aggregation
    pipeline — the stale-data branch is unreachable there. -/
theorem validateCandles_no_stale (ticks : List Tick) (period minRequired : ℤ) :
    (∀ c ∈ TicksToCandles ticks period, 1 ≤ c.Volume) ∧
    ValidateCandles (TicksToCandles ticks period) minRequired ≠ (false, ("stale_data")) := by
  refine ⟨ticksToCandles_volume ticks period, ?_⟩
  have hcount : (TicksToCandles ticks period).countP (fun c => decide (c.Volume = 0)) = 0 := by
    rw [List.countP_eq_zero]
    intro c hc
    simp only [decide_eq_true_eq]
    intro h0
    have := ticksToCandles_volume ticks period c hc
    rw [h0] at this
    norm_num at this
  simp only [ValidateCandles]
  split_ifs with h1 h2
  · intro hc
    have := congrArg Prod.snd hc
    simp at this
  · exfalso
    rw [hcount] at h2
    have h3 := h2.2
    norm_num at h3
  · intro hc
    have := congrArg Prod.fst hc
    simp at this

/-- Witness for C10 at a concrete single-tick aggregation. -/
theorem validateCandles_no_stale_witness :
    (1:ℚ) ≤ (Candle.mk ("m") 1 1 1 1 1 0).Volume ∧
    ValidateCandles (TicksToCandles [(⟨("m"), 1, 0, 0⟩ : Tick)] 1) 1 ≠
      (false, ("stale_data")) :=
  ⟨(validateCandles_no_stale [(⟨("m"), 1, 0, 0⟩ : Tick)] 1 1).1
      (Candle.mk ("m") 1 1 1 1 1 0) (List.mem_singleton.mpr rfl),
    (validateCandles_no_stale [(⟨("m"), 1, 0, 0⟩ : Tick)] 1 1).2⟩

theorem consensus_neutral (config : StrategyConfig) (signals : List StrategySignal)
    (base : Prediction) (marketType : String) :
    NeutralOk (marketAwareConsensus config signals base marketType) := by
  unfold NeutralOk
  simp only [marketAwareConsensus]
  by_cases h0 : signalVotes signals ("UP") + signalVotes signals ("DOWN") = 0
  · rw [if_pos h0]
    intro _
    refine ⟨rfl, ?_⟩
    show ("No directional signals" : String) ≠ ("")
    decide
  · rw [if_neg h0]
    by_cases hN : (consensusOutcome signals
        (if marketType = ("forex") then 7/10 else 3/4)).1 = ("NONE")
    · rw [if_pos hN]
      intro _
      refine ⟨rfl, ?_⟩
      exact str_append_ne_empty _ _ (str_append_ne_empty _ _ (str_append_ne_empty _ _
        (str_append_ne_empty _ _ (str_append_ne_empty _ _ (str_append_ne_empty _ _
          (by decide))))))
    · rw [if_neg hN]
      cases hFO : (marketSpecificFilters base.Indicators
          (consensusOutcome signals (if marketType = ("forex") then 7/10 else 3/4)).2.1
          signals.length
          (consensusOutcome signals (if marketType = ("forex") then 7/10 else 3/4)).1
          marketType).1 with
      | false =>
        simp only [hFO, Bool.not_false, if_true]
        intro _
        refine ⟨rfl, ?_⟩
        exact str_append_ne_empty _ _ (by decide)
      | true =>
        simp only [hFO, Bool.not_true, if_false]
        by_cases hc : (consensusOutcome signals
            (if marketType = ("forex") then 7/10 else 3/4)).2.1 <
            (if marketType = ("forex") then (68/100 : ℚ) else config.MinConfidence)
        · rw [if_pos hc]
          intro _
          refine ⟨rfl, ?_⟩
          exact str_append_ne_empty _ _ (str_append_ne_empty _ _ (str_append_ne_empty _ _
            (str_append_ne_empty _ _ (by decide))))
        · rw [if_neg hc]
          intro hdir
          exact absurd hdir hN

theorem consensus_zero_votes (config : StrategyConfig) (signals : List StrategySignal)
    (base : Prediction) (marketType : String)
    (h : ∀ s ∈ signals, s.Direction ≠ ("UP") ∧ s.Direction ≠ ("DOWN")) :
    (marketAwareConsensus config signals base marketType).Direction = ("NONE") := by
  have hup : signalVotes signals ("UP") = 0 := by
    unfold signalVotes
    rw [List.length_eq_zero, List.filter_eq_nil]
    intro s hs
    simp only [beq_iff_eq]
    exact (h s hs).1
  have hdown : signalVotes signals ("DOWN") = 0 := by
    unfold signalVotes
    rw [List.length_eq_zero, List.filter_eq_nil]
    intro s hs
    simp only [beq_iff_eq]
    exact (h s hs).2
  simp only [marketAwareConsensus]
  rw [if_pos (by rw [hup, hdown])]
  rfl

/-- Claim C1: for every signal list and market type, the consensus step
    never returns a directional prediction when there are zero directional
    (UP or DOWN) signals; and every rejection (the code's `noPrediction`
    outcomes: no directional votes, weak consensus, failed quality filter,
    below-threshold confidence — exactly the cases in which the returned
    direction is NONE) yields Direction = "NONE", Confidence = 0 and a
    non-empty Reason string. -/
theorem consensus_rejections_neutral (config : StrategyConfig) (signals : List StrategySignal)
    (base : Prediction) (marketType : String) :
    ((∀ s ∈ signals, s.Direction ≠ ("UP") ∧ s.Direction ≠ ("DOWN")) →
      (marketAwareConsensus config signals base marketType).Direction = ("NONE")) ∧
    ((marketAwareConsensus config signals base marketType).Direction = ("NONE") →
      (marketAwareConsensus config signals base marketType).Confidence = 0 ∧
      (marketAwareConsensus config signals base marketType).Reason ≠ ("")) :=
  ⟨consensus_zero_votes config signals base marketType,
    consensus_neutral config signals base marketType⟩

/-- Witness for C1: the empty signal list on a volatility market yields a
    neutral rejection with zero confidence and a non-empty reason. -/
theorem consensus_rejections_neutral_witness :
    (marketAwareConsensus ⟨7/10, 14, 9, 21, 50, 20, 2⟩ []
      ⟨(""), ("m"), (""), ("NONE"), 0, (""), 0, 60, 0, emptyIndicators, 0⟩
      ("volatility")).Direction = ("NONE") ∧
    (marketAwareConsensus ⟨7/10, 14, 9, 21, 50, 20, 2⟩ []
      ⟨(""), ("m"), (""), ("NONE"), 0, (""), 0, 60, 0, emptyIndicators, 0⟩
      ("volatility")).Confidence = 0 ∧
    (marketAwareConsensus ⟨7/10, 14, 9, 21, 50, 20, 2⟩ []
      ⟨(""), ("m"), (""), ("NONE"), 0, (""), 0, 60, 0, emptyIndicators, 0⟩
      ("volatility")).Reason ≠ ("") := by
  have h1 := (consensus_rejections_neutral ⟨7/10, 14, 9, 21, 50, 20, 2⟩ []
    ⟨(""), ("m"), (""), ("NONE"), 0, (""), 0, 60, 0, emptyIndicators, 0⟩ ("volatility")).1
    (fun s hs => absurd hs (List.not_mem_nil s))
  have h2 := (consensus_rejections_neutral ⟨7/10, 14, 9, 21, 50, 20, 2⟩ []
    ⟨(""), ("m"), (""), ("NONE"), 0, (""), 0, 60, 0, emptyIndicators, 0⟩ ("volatility")).2 h1
  exact ⟨h1, h2.1, h2.2⟩

theorem getMarketConditionReason_ne_empty (inds : Indicators) (marketType : String) :
    getMarketConditionReason inds marketType ≠ ("") := by
  unfold getMarketConditionReason
  split_ifs
  · exact str_append_ne_empty _ _ (str_append_ne_empty _ _ (by decide))
  · show ("Forex market in neutral zone" : String) ≠ ("")
    decide
  · show ("Forex BB too wide - uncertain market" : String) ≠ ("")
    decide
  · show ("Poor market conditions for trading" : String) ≠ ("")
    decide
  · show ("Poor market conditions for trading" : String) ≠ ("")
    decide

theorem generatePrediction_neutral (s : CombinedStrategy) (market : String)
    (ticks : List Tick) (duration : ℤ) :
    NeutralOk (GeneratePrediction s market ticks duration) := by
  unfold NeutralOk
  simp only [GeneratePrediction]
  by_cases h1 : (ticks.length : ℤ) < getMinimumRequired duration (getMarketType market)
  · rw [if_pos h1]
    intro _
    refine ⟨rfl, ?_⟩
    exact str_append_ne_empty _ _ (str_append_ne_empty _ _ (str_append_ne_empty _ _
      (str_append_ne_empty _ _ (by decide))))
  · rw [if_neg h1]
    by_cases hT : (!isMarketTradeable (CalculateAllIndicators ticks s.config) ticks
        (getMarketType market)) = true
    · rw [if_pos hT]
      intro _
      exact ⟨rfl, getMarketConditionReason_ne_empty _ _⟩
    · rw [if_neg hT]
      by_cases h3 : getMarketType market = ("volatility") ∨
          getMarketType market = ("crash_boom") ∨ getMarketType market = ("forex")
      · rw [if_pos h3]
        by_cases hE : ((if getMarketType market = ("volatility") then
              s.volatilityAnalyze ticks (CalculateAllIndicators ticks s.config)
            else if getMarketType market = ("crash_boom") then
              s.crashBoomAnalyze ticks (CalculateAllIndicators ticks s.config) market
            else s.forexAnalyze ticks (CalculateAllIndicators ticks s.config)).isEmpty) = true
        · rw [if_pos hE]
          intro _
          refine ⟨rfl, ?_⟩
          show ("No trading signals generated" : String) ≠ ("")
          decide
        · rw [if_neg hE]
          exact consensus_neutral _ _ _ _
      · rw [if_neg h3]
        intro _
        refine ⟨rfl, ?_⟩
        show ("Unknown market type" : String) ≠ ("")
        decide

theorem neutralOk_boost (p : Prediction) (h : NeutralOk p) :
    NeutralOk { p with Confidence :=
      if p.Confidence * (105/100) > 95/100 then 95/100 else p.Confidence * (105/100) } := by
  intro hdir
  obtain ⟨hc, hr⟩ := h hdir
  refine ⟨?_, hr⟩
  show (if p.Confidence * (105/100) > 95/100 then (95/100 : ℚ)
    else p.Confidence * (105/100)) = 0
  rw [hc]
  norm_num

theorem checkRateLimit_cache (cfg : Config) (st : EngineState) (market : String) (now : ℤ) :
    ((checkRateLimit cfg st market now).2).cache = st.cache := by
  simp only [checkRateLimit]
  split_ifs <;> rfl

theorem checkRateLimit_ticks (cfg : Config) (st : EngineState) (market : String) (now : ℤ) :
    ((checkRateLimit cfg st market now).2).ticks = st.ticks := by
  simp only [checkRateLimit]
  split_ifs <;> rfl

theorem cacheProbe_some (st : EngineState) (market : String) (duration now : ℤ)
    (p : Prediction) (h : cacheProbe st market duration now = some p) :
    ∃ e, st.cache (predictCacheKey market duration) = some e ∧ e.Prediction = p := by
  cases hc : st.cache (predictCacheKey market duration) with
  | none =>
    simp only [cacheProbe, hc] at h
    exact Option.noConfusion h
  | some e =>
    simp only [cacheProbe, hc] at h
    split_ifs at h with hage
    exact ⟨e, rfl, Option.some.inj h⟩

theorem predictCompute_ok (cfg : Config) (strat : CombinedStrategy) (st : EngineState)
    (market : String) (duration now : ℤ) (freshId : String) :
    ∃ p st2, predictCompute cfg strat st market duration now freshId = (Except.ok p, st2) ∧
      NeutralOk p := by
  simp only [predictCompute]
  by_cases h1 : ((st.ticks market).length : ℤ) <
      GetMinimumTicksRequired (GetTimeframeConfig duration (getMarketTypeHelper market))
        (getMarketTypeHelper market)
  · rw [if_pos h1]
    refine ⟨_, _, rfl, ?_⟩
    intro _
    refine ⟨rfl, ?_⟩
    exact str_append_ne_empty _ _ (str_append_ne_empty _ _ (str_append_ne_empty _ _
      (str_append_ne_empty _ _ (str_append_ne_empty _ _ (str_append_ne_empty _ _
        (by decide))))))
  · rw [if_neg h1]
    cases hV : (ValidateCandles
        (TicksToCandles (st.ticks market)
          (GetTimeframeConfig duration (getMarketTypeHelper market)).CandlePeriod)
        (GetTimeframeConfig duration (getMarketTypeHelper market)).MinCandles).1 with
    | false =>
      simp only [hV, Bool.not_false, if_true]
      refine ⟨_, _, rfl, ?_⟩
      intro _
      refine ⟨rfl, ?_⟩
      exact str_append_ne_empty _ _ (str_append_ne_empty _ _ (str_append_ne_empty _ _
        (str_append_ne_empty _ _ (str_append_ne_empty _ _ (str_append_ne_empty _ _
          (by decide))))))
    | true =>
      simp only [hV, Bool.not_true, if_false]
      by_cases hB : ((TicksToCandles (st.ticks market)
            (GetTimeframeConfig duration (getMarketTypeHelper market)).CandlePeriod).length : ℤ) ≥
          (GetTimeframeConfig duration (getMarketTypeHelper market)).MinCandles * 2
      · rw [if_pos hB]
        refine ⟨_, _, rfl, ?_⟩
        exact neutralOk_boost _ (generatePrediction_neutral _ _ _ _)
      · rw [if_neg hB]
        refine ⟨_, _, rfl, ?_⟩
        exact generatePrediction_neutral _ _ _ _

/-- Claim C2: `Predict` surfaces an error to the caller only for the
    rate-limit refusal; whenever the rate limit admits the call, the result
    is a valid Prediction with nil error, and every neutral ("NONE")
    prediction it can return carries zero confidence and a human-readable
    (non-empty) reason — in particular the decision non-events: the
    engine-level insufficient-ticks and failed-candle-validation branches
    (stated explicitly on `predictCompute`), and every strategy-level
    non-event (unfavorable market conditions, no signals, weak consensus,
    failed filter, below-threshold confidence) via `GeneratePrediction`.
    The `hcache` hypothesis is the invariant that cached entries were
    produced by earlier computations (trivially true of the empty cache,
    and preserved since stored entries are computed predictions). -/
theorem predict_error_only_rate_limit (cfg : Config) (strat : CombinedStrategy)
    (st : EngineState) (market : String) (duration now : ℤ) (freshId : String)
    (hcache : ∀ k e, st.cache k = some e → NeutralOk e.Prediction) :
    (∀ msg, (Predict cfg strat st market duration now freshId).1 = Except.error msg →
      msg = ("rate limit exceeded for ") ++ market) ∧
    ((checkRateLimit cfg st market now).1 = true →
      ∃ p, (Predict cfg strat st market duration now freshId).1 = Except.ok p ∧ NeutralOk p) ∧
    (((st.ticks market).length : ℤ) <
        GetMinimumTicksRequired (GetTimeframeConfig duration (getMarketTypeHelper market))
          (getMarketTypeHelper market) →
      ∃ p st2, predictCompute cfg strat st market duration now freshId = (Except.ok p, st2) ∧
        p.Direction = ("NONE") ∧ p.Confidence = 0 ∧ p.Reason ≠ ("")) ∧
    (¬ ((st.ticks market).length : ℤ) <
        GetMinimumTicksRequired (GetTimeframeConfig duration (getMarketTypeHelper market))
          (getMarketTypeHelper market) →
      (ValidateCandles
        (TicksToCandles (st.ticks market)
          (GetTimeframeConfig duration (getMarketTypeHelper market)).CandlePeriod)
        (GetTimeframeConfig duration (getMarketTypeHelper market)).MinCandles).1 = false →
      ∃ p st2, predictCompute cfg strat st market duration now freshId = (Except.ok p, st2) ∧
        p.Direction = ("NONE") ∧ p.Confidence = 0 ∧ p.Reason ≠ ("")) ∧
    (∀ (market2 : String) (ticks2 : List Tick) (duration2 : ℤ),
      NeutralOk (GeneratePrediction strat market2 ticks2 duration2)) := by
  refine ⟨?_, ?_, ?_, ?_, ?_⟩
  · intro msg h
    simp only [Predict] at h
    by_cases hrl : (checkRateLimit cfg st market now).1 = true
    · rw [if_neg (by rw [hrl]; simp)] at h
      cases hp : cacheProbe (checkRateLimit cfg st market now).2 market duration now with
      | some p =>
        rw [hp] at h
        cases h
      | none =>
        rw [hp] at h
        obtain ⟨p, st2, heq, _⟩ := predictCompute_ok cfg strat
          (checkRateLimit cfg st market now).2 market duration now freshId
        rw [heq] at h
        cases h
    · have hb : (checkRateLimit cfg st market now).1 = false := by
        rcases Bool.eq_false_or_eq_true (checkRateLimit cfg st market now).1 with hf | ht
        · exact absurd hf hrl
        · exact ht
      rw [if_pos (by rw [hb]; simp)] at h
      exact (Except.error.inj h).symm
  · intro hrl
    simp only [Predict]
    rw [if_neg (by rw [hrl]; simp)]
    cases hp : cacheProbe (checkRateLimit cfg st market now).2 market duration now with
    | some p =>
      obtain ⟨e, hce, hep⟩ := cacheProbe_some _ _ _ _ _ hp
      rw [checkRateLimit_cache] at hce
      exact ⟨p, rfl, hep ▸ hcache _ e hce⟩
    | none =>
      obtain ⟨p, st2, heq, hok⟩ := predictCompute_ok cfg strat
        (checkRateLimit cfg st market now).2 market duration now freshId
      exact ⟨p, by rw [heq], hok⟩
  · intro h1
    simp only [predictCompute]
    rw [if_pos h1]
    refine ⟨_, _, rfl, rfl, rfl, ?_⟩
    exact str_append_ne_empty _ _ (str_append_ne_empty _ _ (str_append_ne_empty _ _
      (str_append_ne_empty _ _ (str_append_ne_empty _ _ (str_append_ne_empty _ _
        (by decide))))))
  · intro h1 hV
    simp only [predictCompute]
    rw [if_neg h1, if_pos (by rw [hV]; simp)]
    refine ⟨_, _, rfl, rfl, rfl, ?_⟩
    exact str_append_ne_empty _ _ (str_append_ne_empty _ _ (str_append_ne_empty _ _
      (str_append_ne_empty _ _ (str_append_ne_empty _ _ (str_append_ne_empty _ _
        (by decide))))))
  · intro market2 ticks2 duration2
    exact generatePrediction_neutral strat market2 ticks2 duration2

/-- Witness for C2 with an empty engine state (empty cache, zero counters):
    the call is admitted and returns a valid neutral prediction with nil
    error. -/
theorem predict_error_only_rate_limit_witness :
    (checkRateLimit ⟨⟨7/10, 14, 9, 21, 50, 20, 2⟩, ⟨0⟩⟩
      ⟨fun _ => [], fun _ => 0, fun _ => none, fun _ => 0, 0⟩ ("m") 0).1 = true ∧
    ∃ p, (Predict ⟨⟨7/10, 14, 9, 21, 50, 20, 2⟩, ⟨0⟩⟩
      ⟨⟨7/10, 14, 9, 21, 50, 20, 2⟩, fun _ _ => [], fun _ _ _ => [], fun _ _ => []⟩
      ⟨fun _ => [], fun _ => 0, fun _ => none, fun _ => 0, 0⟩
      ("m") 60 0 ("id")).1 = Except.ok p ∧ NeutralOk p := by
  have hrl : (checkRateLimit ⟨⟨7/10, 14, 9, 21, 50, 20, 2⟩, ⟨0⟩⟩
      ⟨fun _ => [], fun _ => 0, fun _ => none, fun _ => 0, 0⟩ ("m") 0).1 = true := by
    simp only [checkRateLimit, maxPerMinute]
    norm_num
  refine ⟨hrl, ?_⟩
  exact (predict_error_only_rate_limit ⟨⟨7/10, 14, 9, 21, 50, 20, 2⟩, ⟨0⟩⟩
    ⟨⟨7/10, 14, 9, 21, 50, 20, 2⟩, fun _ _ => [], fun _ _ _ => [], fun _ _ => []⟩
    ⟨fun _ => [], fun _ => 0, fun _ => none, fun _ => 0, 0⟩
    ("m") 60 0 ("id") (fun _ e h => Option.noConfusion h)).2.1 hrl

theorem maxPerMinute_pos (cfg : Config) : 1 ≤ maxPerMinute cfg := by
  unfold maxPerMinute
  split_ifs <;> omega

/-- Claim C4: within the current one-minute window (no reset), a call for
    an instrument whose admitted-request counter has reached the per-minute
    cap fails with the rate-limit error — for every cache content and tick
    store, i.e. before any cache lookup, indicator or strategy computation
    can influence the result; below the cap the call is admitted and the
    counter increments by one (so N admitted requests put the counter at N
    and the (N+1)th call with the counter at the cap fails); and once the
    window has elapsed the counter map is reset and the request is admitted
    again with a fresh count of 1. -/
theorem rate_limit_cap (cfg : Config) (strat : CombinedStrategy) (st : EngineState)
    (market : String) (duration now : ℤ) (freshId : String) :
    (¬ now - st.lastCounterReset > 60 * nanosPerSecond →
      st.requestCounter market ≥ maxPerMinute cfg →
      (Predict cfg strat st market duration now freshId).1 =
        Except.error (("rate limit exceeded for ") ++ market)) ∧
    (¬ now - st.lastCounterReset > 60 * nanosPerSecond →
      st.requestCounter market < maxPerMinute cfg →
      (checkRateLimit cfg st market now).1 = true ∧
      (checkRateLimit cfg st market now).2.requestCounter market =
        st.requestCounter market + 1) ∧
    (now - st.lastCounterReset > 60 * nanosPerSecond →
      (checkRateLimit cfg st market now).1 = true ∧
      (checkRateLimit cfg st market now).2.requestCounter market = 1 ∧
      (checkRateLimit cfg st market now).2.lastCounterReset = now) := by
  refine ⟨?_, ?_, ?_⟩
  · intro hw hge
    have hfalse : (checkRateLimit cfg st market now).1 = false := by
      simp only [checkRateLimit]
      rw [if_neg hw, if_pos hge]
    simp only [Predict]
    rw [if_pos (by rw [hfalse]; rfl)]
  · intro hw hlt
    simp only [checkRateLimit]
    rw [if_neg hw, if_neg (not_le.mpr hlt)]
    refine ⟨rfl, ?_⟩
    simp
  · intro hw
    have hcap := maxPerMinute_pos cfg
    simp only [checkRateLimit]
    rw [if_pos hw, if_neg (by simp only []; omega)]
    refine ⟨rfl, ?_, rfl⟩
    simp

/-- Witness for C4: with the default cap 10, a counter already at 10 inside
    the window makes the call fail with the rate-limit error, and a call
    after the window has elapsed resets the counter and is admitted. -/
theorem rate_limit_cap_witness :
    (¬ (0:ℤ) - 0 > 60 * nanosPerSecond) ∧
    ((fun _ : String => (10:ℤ)) ("m") ≥ maxPerMinute ⟨⟨7/10, 14, 9, 21, 50, 20, 2⟩, ⟨0⟩⟩) ∧
    (Predict ⟨⟨7/10, 14, 9, 21, 50, 20, 2⟩, ⟨0⟩⟩
      ⟨⟨7/10, 14, 9, 21, 50, 20, 2⟩, fun _ _ => [], fun _ _ _ => [], fun _ _ => []⟩
      ⟨fun _ => [], fun _ => 0, fun _ => none, fun _ => 10, 0⟩
      ("m") 60 0 ("id")).1 = Except.error (("rate limit exceeded for ") ++ ("m")) ∧
    ((100 * nanosPerSecond : ℤ) - 0 > 60 * nanosPerSecond) ∧
    (checkRateLimit ⟨⟨7/10, 14, 9, 21, 50, 20, 2⟩, ⟨0⟩⟩
      ⟨fun _ => [], fun _ => 0, fun _ => none, fun _ => 10, 0⟩
      ("m") (100 * nanosPerSecond)).1 = true ∧
    (checkRateLimit ⟨⟨7/10, 14, 9, 21, 50, 20, 2⟩, ⟨0⟩⟩
      ⟨fun _ => [], fun _ => 0, fun _ => none, fun _ => 10, 0⟩
      ("m") (100 * nanosPerSecond)).2.requestCounter ("m") = 1 := by
  have h1 : ¬ (0:ℤ) - 0 > 60 * nanosPerSecond := by norm_num [nanosPerSecond]
  have h2 : ((fun _ : String => (10:ℤ)) ("m")) ≥ maxPerMinute ⟨⟨7/10, 14, 9, 21, 50, 20, 2⟩, ⟨0⟩⟩ := by
    norm_num [maxPerMinute]
  have h3 : ((100 * nanosPerSecond : ℤ) - 0 > 60 * nanosPerSecond) := by
    norm_num [nanosPerSecond]
  refine ⟨h1, h2, ?_, h3, ?_, ?_⟩
  · exact (rate_limit_cap ⟨⟨7/10, 14, 9, 21, 50, 20, 2⟩, ⟨0⟩⟩
      ⟨⟨7/10, 14, 9, 21, 50, 20, 2⟩, fun _ _ => [], fun _ _ _ => [], fun _ _ => []⟩
      ⟨fun _ => [], fun _ => 0, fun _ => none, fun _ => 10, 0⟩
      ("m") 60 0 ("id")).1 h1 h2
  · exact ((rate_limit_cap ⟨⟨7/10, 14, 9, 21, 50, 20, 2⟩, ⟨0⟩⟩
      ⟨⟨7/10, 14, 9, 21, 50, 20, 2⟩, fun _ _ => [], fun _ _ _ => [], fun _ _ => []⟩
      ⟨fun _ => [], fun _ => 0, fun _ => none, fun _ => 10, 0⟩
      ("m") 60 (100 * nanosPerSecond) ("id")).2.2 h3).1
  · exact ((rate_limit_cap ⟨⟨7/10, 14, 9, 21, 50, 20, 2⟩, ⟨0⟩⟩
      ⟨⟨7/10, 14, 9, 21, 50, 20, 2⟩, fun _ _ => [], fun _ _ _ => [], fun _ _ => []⟩
      ⟨fun _ => [], fun _ => 0, fun _ => none, fun _ => 10, 0⟩
      ("m") 60 (100 * nanosPerSecond) ("id")).2.2 h3).2.1

/-- Claim C5 (amended): (a) a `Predict` call within the horizon-scaled TTL
    of a stored cache entry (not rate-limited) returns exactly the stored
    Prediction, leaving the cache unchanged and regardless of the tick
    data — no recomputation; (b) on the compute path (cache miss, enough
    ticks, valid candles) the returned prediction is stored in the cache
    under the (instrument, horizon) key with the call's timestamp, so an
    identical second call within the TTL returns it byte-identically;
    (c) an entry whose age has reached the TTL is not used: the call runs
    the compute path; (d) the TTL is nondecreasing in the horizon. The
    original claim's "a second Predict call within the TTL returns a
    Prediction identical to the first call's" holds only when the first
    call reached the strategy stage: early neutral returns are not cached
    (see the counterexample). -/
theorem cache_ttl_behavior (cfg : Config) (strat : CombinedStrategy) (st : EngineState)
    (market : String) (duration now : ℤ) (freshId : String) :
    (∀ e, (checkRateLimit cfg st market now).1 = true →
      st.cache (predictCacheKey market duration) = some e →
      now - e.Timestamp < getCacheTimeout duration →
      (Predict cfg strat st market duration now freshId).1 = Except.ok e.Prediction ∧
      (Predict cfg strat st market duration now freshId).2.cache = st.cache) ∧
    ((checkRateLimit cfg st market now).1 = true →
      cacheProbe (checkRateLimit cfg st market now).2 market duration now = none →
      ¬ ((st.ticks market).length : ℤ) <
        GetMinimumTicksRequired (GetTimeframeConfig duration (getMarketTypeHelper market))
          (getMarketTypeHelper market) →
      (ValidateCandles
        (TicksToCandles (st.ticks market)
          (GetTimeframeConfig duration (getMarketTypeHelper market)).CandlePeriod)
        (GetTimeframeConfig duration (getMarketTypeHelper market)).MinCandles).1 = true →
      ∃ p, (Predict cfg strat st market duration now freshId).1 = Except.ok p ∧
        (Predict cfg strat st market duration now freshId).2.cache
          (predictCacheKey market duration) = some ⟨p, now⟩) ∧
    ((checkRateLimit cfg st market now).1 = true →
      ∀ e, st.cache (predictCacheKey market duration) = some e →
      ¬ now - e.Timestamp < getCacheTimeout duration →
      Predict cfg strat st market duration now freshId =
        predictCompute cfg strat (checkRateLimit cfg st market now).2 market duration now
          freshId) ∧
    (∀ d1 d2 : ℤ, d1 ≤ d2 → getCacheTimeout d1 ≤ getCacheTimeout d2) := by
  refine ⟨?_, ?_, ?_, ?_⟩
  · intro e hrl hce hage
    have hprobe : cacheProbe (checkRateLimit cfg st market now).2 market duration now =
        some e.Prediction := by
      unfold cacheProbe
      rw [checkRateLimit_cache, hce]
      show (if now - e.Timestamp < getCacheTimeout duration then some e.Prediction
        else none) = some e.Prediction
      rw [if_pos hage]
    simp only [Predict]
    rw [if_neg (by rw [hrl]; simp), hprobe]
    exact ⟨rfl, checkRateLimit_cache cfg st market now⟩
  · intro hrl hprobe hticks hvalid
    simp only [Predict]
    rw [if_neg (by rw [hrl]; simp), hprobe]
    have hticks1 : ¬ (((checkRateLimit cfg st market now).2.ticks market).length : ℤ) <
        GetMinimumTicksRequired (GetTimeframeConfig duration (getMarketTypeHelper market))
          (getMarketTypeHelper market) := by
      rw [checkRateLimit_ticks]
      exact hticks
    have hvalid1 : (ValidateCandles
        (TicksToCandles ((checkRateLimit cfg st market now).2.ticks market)
          (GetTimeframeConfig duration (getMarketTypeHelper market)).CandlePeriod)
        (GetTimeframeConfig duration (getMarketTypeHelper market)).MinCandles).1 = true := by
      rw [checkRateLimit_ticks]
      exact hvalid
    simp only [predictCompute]
    rw [if_neg hticks1, if_neg (by rw [hvalid1]; simp)]
    by_cases hB : ((TicksToCandles ((checkRateLimit cfg st market now).2.ticks market)
          (GetTimeframeConfig duration (getMarketTypeHelper market)).CandlePeriod).length : ℤ) ≥
        (GetTimeframeConfig duration (getMarketTypeHelper market)).MinCandles * 2
    · rw [if_pos hB]
      refine ⟨_, rfl, ?_⟩
      simp
    · rw [if_neg hB]
      refine ⟨_, rfl, ?_⟩
      simp
  · intro hrl e hce hage
    have hprobe : cacheProbe (checkRateLimit cfg st market now).2 market duration now =
        none := by
      unfold cacheProbe
      rw [checkRateLimit_cache, hce]
      show (if now - e.Timestamp < getCacheTimeout duration then some e.Prediction
        else none) = none
      rw [if_neg hage]
    simp only [Predict]
    rw [if_neg (by rw [hrl]; simp), hprobe]
  · intro d1 d2 hle
    simp only [getCacheTimeout, nanosPerSecond]
    split_ifs <;> omega

/-- Counterexample to C5 as stated: the first call returns an early neutral
    "collecting data" prediction, which is not cached; a tick arrives, and a
    second call within the TTL (not rate-limited) recomputes and returns a
    different Prediction (DataPoints 1 vs 2). -/
theorem cache_ttl_counterexample :
    ((nanosPerSecond : ℤ) - 0 < getCacheTimeout 60) ∧
    ((Predict ⟨⟨7/10, 14, 9, 21, 50, 20, 2⟩, ⟨0⟩⟩
        ⟨⟨7/10, 14, 9, 21, 50, 20, 2⟩, fun _ _ => [], fun _ _ _ => [], fun _ _ => []⟩
        ⟨fun _ => [⟨("m"), 1, 0, 0⟩], fun _ => 0, fun _ => none, fun _ => 0, 0⟩
        ("m") 60 0 ("a")).1.toOption.map Prediction.DataPoints = some 1) ∧
    ((Predict ⟨⟨7/10, 14, 9, 21, 50, 20, 2⟩, ⟨0⟩⟩
        ⟨⟨7/10, 14, 9, 21, 50, 20, 2⟩, fun _ _ => [], fun _ _ _ => [], fun _ _ => []⟩
        { (Predict ⟨⟨7/10, 14, 9, 21, 50, 20, 2⟩, ⟨0⟩⟩
            ⟨⟨7/10, 14, 9, 21, 50, 20, 2⟩, fun _ _ => [], fun _ _ _ => [], fun _ _ => []⟩
            ⟨fun _ => [⟨("m"), 1, 0, 0⟩], fun _ => 0, fun _ => none, fun _ => 0, 0⟩
            ("m") 60 0 ("a")).2 with
          ticks := fun _ => [⟨("m"), 1, 0, 0⟩, ⟨("m"), 1, 1, 0⟩] }
        ("m") 60 nanosPerSecond ("a")).1.toOption.map Prediction.DataPoints = some 2) ∧
    (Predict ⟨⟨7/10, 14, 9, 21, 50, 20, 2⟩, ⟨0⟩⟩
        ⟨⟨7/10, 14, 9, 21, 50, 20, 2⟩, fun _ _ => [], fun _ _ _ => [], fun _ _ => []⟩
        ⟨fun _ => [⟨("m"), 1, 0, 0⟩], fun _ => 0, fun _ => none, fun _ => 0, 0⟩
        ("m") 60 0 ("a")).1 ≠
      (Predict ⟨⟨7/10, 14, 9, 21, 50, 20, 2⟩, ⟨0⟩⟩
        ⟨⟨7/10, 14, 9, 21, 50, 20, 2⟩, fun _ _ => [], fun _ _ _ => [], fun _ _ => []⟩
        { (Predict ⟨⟨7/10, 14, 9, 21, 50, 20, 2⟩, ⟨0⟩⟩
            ⟨⟨7/10, 14, 9, 21, 50, 20, 2⟩, fun _ _ => [], fun _ _ _ => [], fun _ _ => []⟩
            ⟨fun _ => [⟨("m"), 1, 0, 0⟩], fun _ => 0, fun _ => none, fun _ => 0, 0⟩
            ("m") 60 0 ("a")).2 with
          ticks := fun _ => [⟨("m"), 1, 0, 0⟩, ⟨("m"), 1, 1, 0⟩] }
        ("m") 60 nanosPerSecond ("a")).1 := by
  have hmt : getMarketTypeHelper ("m") = ("volatility") := by decide
  have hnf : ("volatility" : String) ≠ ("forex") := by decide
  have htf : GetTimeframeConfig 60 ("volatility") =
      ⟨5 * nanosPerSecond, 15, 14, 9, 21, 50, 40⟩ := by
    simp [GetTimeframeConfig, hnf]
  have hmin : GetMinimumTicksRequired ⟨5 * nanosPerSecond, 15, 14, 9, 21, 50, 40⟩
      ("volatility") = 25 := by
    simp [GetMinimumTicksRequired, hnf]
  have hrlA1 : (checkRateLimit ⟨⟨7/10, 14, 9, 21, 50, 20, 2⟩, ⟨0⟩⟩
      ⟨fun _ => [⟨("m"), 1, 0, 0⟩], fun _ => 0, fun _ => none, fun _ => 0, 0⟩
      ("m") 0).1 = true := by
    norm_num [checkRateLimit, maxPerMinute, nanosPerSecond]
  have hrlA3 : (checkRateLimit ⟨⟨7/10, 14, 9, 21, 50, 20, 2⟩, ⟨0⟩⟩
      ⟨fun _ => [⟨("m"), 1, 0, 0⟩], fun _ => 0, fun _ => none, fun _ => 0, 0⟩
      ("m") 0).2.lastCounterReset = 0 := by
    norm_num [checkRateLimit, maxPerMinute, nanosPerSecond]
  have hrlA4 : (checkRateLimit ⟨⟨7/10, 14, 9, 21, 50, 20, 2⟩, ⟨0⟩⟩
      ⟨fun _ => [⟨("m"), 1, 0, 0⟩], fun _ => 0, fun _ => none, fun _ => 0, 0⟩
      ("m") 0).2.requestCounter ("m") = 1 := by
    norm_num [checkRateLimit, maxPerMinute, nanosPerSecond]
  have hprobeA : cacheProbe (checkRateLimit ⟨⟨7/10, 14, 9, 21, 50, 20, 2⟩, ⟨0⟩⟩
      ⟨fun _ => [⟨("m"), 1, 0, 0⟩], fun _ => 0, fun _ => none, fun _ => 0, 0⟩
      ("m") 0).2 ("m") 60 0 = none := by
    unfold cacheProbe
    rw [checkRateLimit_cache]
  have hlen1 : (((checkRateLimit ⟨⟨7/10, 14, 9, 21, 50, 20, 2⟩, ⟨0⟩⟩
      ⟨fun _ => [⟨("m"), 1, 0, 0⟩], fun _ => 0, fun _ => none, fun _ => 0, 0⟩
      ("m") 0).2.ticks ("m")).length : ℤ) = 1 := by
    rw [checkRateLimit_ticks]
    rfl
  have hP1 : (Predict ⟨⟨7/10, 14, 9, 21, 50, 20, 2⟩, ⟨0⟩⟩
      ⟨⟨7/10, 14, 9, 21, 50, 20, 2⟩, fun _ _ => [], fun _ _ _ => [], fun _ _ => []⟩
      ⟨fun _ => [⟨("m"), 1, 0, 0⟩], fun _ => 0, fun _ => none, fun _ => 0, 0⟩
      ("m") 60 0 ("a")).1.toOption.map Prediction.DataPoints = some 1 ∧
      (Predict ⟨⟨7/10, 14, 9, 21, 50, 20, 2⟩, ⟨0⟩⟩
      ⟨⟨7/10, 14, 9, 21, 50, 20, 2⟩, fun _ _ => [], fun _ _ _ => [], fun _ _ => []⟩
      ⟨fun _ => [⟨("m"), 1, 0, 0⟩], fun _ => 0, fun _ => none, fun _ => 0, 0⟩
      ("m") 60 0 ("a")).2 = (checkRateLimit ⟨⟨7/10, 14, 9, 21, 50, 20, 2⟩, ⟨0⟩⟩
      ⟨fun _ => [⟨("m"), 1, 0, 0⟩], fun _ => 0, fun _ => none, fun _ => 0, 0⟩
      ("m") 0).2 := by
    simp only [Predict]
    rw [if_neg (by rw [hrlA1]; simp), hprobeA]
    simp only [predictCompute]
    rw [hmt, htf, hmin, hlen1]
    rw [if_pos (by norm_num)]
    constructor
    · rfl
    · rfl
  have hrlB1 : (checkRateLimit ⟨⟨7/10, 14, 9, 21, 50, 20, 2⟩, ⟨0⟩⟩
      (EngineState.mk (fun _ => [⟨("m"), 1, 0, 0⟩, ⟨("m"), 1, 1, 0⟩])
        (checkRateLimit ⟨⟨7/10, 14, 9, 21, 50, 20, 2⟩, ⟨0⟩⟩
          ⟨fun _ => [⟨("m"), 1, 0, 0⟩], fun _ => 0, fun _ => none, fun _ => 0, 0⟩
          ("m") 0).2.latestPrice
        (checkRateLimit ⟨⟨7/10, 14, 9, 21, 50, 20, 2⟩, ⟨0⟩⟩
          ⟨fun _ => [⟨("m"), 1, 0, 0⟩], fun _ => 0, fun _ => none, fun _ => 0, 0⟩
          ("m") 0).2.cache
        (checkRateLimit ⟨⟨7/10, 14, 9, 21, 50, 20, 2⟩, ⟨0⟩⟩
          ⟨fun _ => [⟨("m"), 1, 0, 0⟩], fun _ => 0, fun _ => none, fun _ => 0, 0⟩
          ("m") 0).2.requestCounter
        (checkRateLimit ⟨⟨7/10, 14, 9, 21, 50, 20, 2⟩, ⟨0⟩⟩
          ⟨fun _ => [⟨("m"), 1, 0, 0⟩], fun _ => 0, fun _ => none, fun _ => 0, 0⟩
          ("m") 0).2.lastCounterReset)
      ("m") nanosPerSecond).1 = true := by
    simp only [checkRateLimit, maxPerMinute]
    norm_num [nanosPerSecond, hrlA3, hrlA4]
  have hprobeB : cacheProbe (checkRateLimit ⟨⟨7/10, 14, 9, 21, 50, 20, 2⟩, ⟨0⟩⟩
      (EngineState.mk (fun _ => [⟨("m"), 1, 0, 0⟩, ⟨("m"), 1, 1, 0⟩])
        (checkRateLimit ⟨⟨7/10, 14, 9, 21, 50, 20, 2⟩, ⟨0⟩⟩
          ⟨fun _ => [⟨("m"), 1, 0, 0⟩], fun _ => 0, fun _ => none, fun _ => 0, 0⟩
          ("m") 0).2.latestPrice
        (checkRateLimit ⟨⟨7/10, 14, 9, 21, 50, 20, 2⟩, ⟨0⟩⟩
          ⟨fun _ => [⟨("m"), 1, 0, 0⟩], fun _ => 0, fun _ => none, fun _ => 0, 0⟩
          ("m") 0).2.cache
        (checkRateLimit ⟨⟨7/10, 14, 9, 21, 50, 20, 2⟩, ⟨0⟩⟩
          ⟨fun _ => [⟨("m"), 1, 0, 0⟩], fun _ => 0, fun _ => none, fun _ => 0, 0⟩
          ("m") 0).2.requestCounter
        (checkRateLimit ⟨⟨7/10, 14, 9, 21, 50, 20, 2⟩, ⟨0⟩⟩
          ⟨fun _ => [⟨("m"), 1, 0, 0⟩], fun _ => 0, fun _ => none, fun _ => 0, 0⟩
          ("m") 0).2.lastCounterReset)
      ("m") nanosPerSecond).2 ("m") 60 nanosPerSecond = none := by
    simp only [cacheProbe, checkRateLimit_cache]
  have hlenB : (((checkRateLimit ⟨⟨7/10, 14, 9, 21, 50, 20, 2⟩, ⟨0⟩⟩
      (EngineState.mk (fun _ => [⟨("m"), 1, 0, 0⟩, ⟨("m"), 1, 1, 0⟩])
        (checkRateLimit ⟨⟨7/10, 14, 9, 21, 50, 20, 2⟩, ⟨0⟩⟩
          ⟨fun _ => [⟨("m"), 1, 0, 0⟩], fun _ => 0, fun _ => none, fun _ => 0, 0⟩
          ("m") 0).2.latestPrice
        (checkRateLimit ⟨⟨7/10, 14, 9, 21, 50, 20, 2⟩, ⟨0⟩⟩
          ⟨fun _ => [⟨("m"), 1, 0, 0⟩], fun _ => 0, fun _ => none, fun _ => 0, 0⟩
          ("m") 0).2.cache
        (checkRateLimit ⟨⟨7/10, 14, 9, 21, 50, 20, 2⟩, ⟨0⟩⟩
          ⟨fun _ => [⟨("m"), 1, 0, 0⟩], fun _ => 0, fun _ => none, fun _ => 0, 0⟩
          ("m") 0).2.requestCounter
        (checkRateLimit ⟨⟨7/10, 14, 9, 21, 50, 20, 2⟩, ⟨0⟩⟩
          ⟨fun _ => [⟨("m"), 1, 0, 0⟩], fun _ => 0, fun _ => none, fun _ => 0, 0⟩
          ("m") 0).2.lastCounterReset)
      ("m") nanosPerSecond).2.ticks ("m")).length : ℤ) = 2 := by
    rw [checkRateLimit_ticks]
    rfl
  have hQ1 : (Predict ⟨⟨7/10, 14, 9, 21, 50, 20, 2⟩, ⟨0⟩⟩
      ⟨⟨7/10, 14, 9, 21, 50, 20, 2⟩, fun _ _ => [], fun _ _ _ => [], fun _ _ => []⟩
      (EngineState.mk (fun _ => [⟨("m"), 1, 0, 0⟩, ⟨("m"), 1, 1, 0⟩])
        (checkRateLimit ⟨⟨7/10, 14, 9, 21, 50, 20, 2⟩, ⟨0⟩⟩
          ⟨fun _ => [⟨("m"), 1, 0, 0⟩], fun _ => 0, fun _ => none, fun _ => 0, 0⟩
          ("m") 0).2.latestPrice
        (checkRateLimit ⟨⟨7/10, 14, 9, 21, 50, 20, 2⟩, ⟨0⟩⟩
          ⟨fun _ => [⟨("m"), 1, 0, 0⟩], fun _ => 0, fun _ => none, fun _ => 0, 0⟩
          ("m") 0).2.cache
        (checkRateLimit ⟨⟨7/10, 14, 9, 21, 50, 20, 2⟩, ⟨0⟩⟩
          ⟨fun _ => [⟨("m"), 1, 0, 0⟩], fun _ => 0, fun _ => none, fun _ => 0, 0⟩
          ("m") 0).2.requestCounter
        (checkRateLimit ⟨⟨7/10, 14, 9, 21, 50, 20, 2⟩, ⟨0⟩⟩
          ⟨fun _ => [⟨("m"), 1, 0, 0⟩], fun _ => 0, fun _ => none, fun _ => 0, 0⟩
          ("m") 0).2.lastCounterReset)
      ("m") 60 nanosPerSecond ("a")).1.toOption.map Prediction.DataPoints = some 2 := by
    simp only [Predict]
    rw [if_neg (by rw [hrlB1]; simp), hprobeB]
    simp only [predictCompute]
    rw [hmt, htf, hmin, hlenB]
    rw [if_pos (by norm_num)]
    rfl
  have hQ2 : (Predict ⟨⟨7/10, 14, 9, 21, 50, 20, 2⟩, ⟨0⟩⟩
      ⟨⟨7/10, 14, 9, 21, 50, 20, 2⟩, fun _ _ => [], fun _ _ _ => [], fun _ _ => []⟩
      (EngineState.mk (fun _ => [⟨("m"), 1, 0, 0⟩, ⟨("m"), 1, 1, 0⟩])
        (Predict ⟨⟨7/10, 14, 9, 21, 50, 20, 2⟩, ⟨0⟩⟩
          ⟨⟨7/10, 14, 9, 21, 50, 20, 2⟩, fun _ _ => [], fun _ _ _ => [], fun _ _ => []⟩
          ⟨fun _ => [⟨("m"), 1, 0, 0⟩], fun _ => 0, fun _ => none, fun _ => 0, 0⟩
          ("m") 60 0 ("a")).2.latestPrice
        (Predict ⟨⟨7/10, 14, 9, 21, 50, 20, 2⟩, ⟨0⟩⟩
          ⟨⟨7/10, 14, 9, 21, 50, 20, 2⟩, fun _ _ => [], fun _ _ _ => [], fun _ _ => []⟩
          ⟨fun _ => [⟨("m"), 1, 0, 0⟩], fun _ => 0, fun _ => none, fun _ => 0, 0⟩
          ("m") 60 0 ("a")).2.cache
        (Predict ⟨⟨7/10, 14, 9, 21, 50, 20, 2⟩, ⟨0⟩⟩
          ⟨⟨7/10, 14, 9, 21, 50, 20, 2⟩, fun _ _ => [], fun _ _ _ => [], fun _ _ => []⟩
          ⟨fun _ => [⟨("m"), 1, 0, 0⟩], fun _ => 0, fun _ => none, fun _ => 0, 0⟩
          ("m") 60 0 ("a")).2.requestCounter
        (Predict ⟨⟨7/10, 14, 9, 21, 50, 20, 2⟩, ⟨0⟩⟩
          ⟨⟨7/10, 14, 9, 21, 50, 20, 2⟩, fun _ _ => [], fun _ _ _ => [], fun _ _ => []⟩
          ⟨fun _ => [⟨("m"), 1, 0, 0⟩], fun _ => 0, fun _ => none, fun _ => 0, 0⟩
          ("m") 60 0 ("a")).2.lastCounterReset)
      ("m") 60 nanosPerSecond ("a")).1.toOption.map Prediction.DataPoints = some 2 := by
    rw [hP1.2]
    exact hQ1
  refine ⟨by norm_num [getCacheTimeout, nanosPerSecond], hP1.1, hQ2, ?_⟩
  intro heq
  have h5 := hP1.1
  rw [heq] at h5
  have := h5.symm.trans hQ2
  simp at this

/-- Witness for C5 (amended): a fresh entry stored at time 0 is served
    back unchanged at 1 second of age (TTL for a 60-second horizon is 5
    seconds), and the TTL is nondecreasing between horizons 60 and 300. -/
theorem cache_ttl_behavior_witness :
    (checkRateLimit ⟨⟨7/10, 14, 9, 21, 50, 20, 2⟩, ⟨0⟩⟩
      ⟨fun _ => [], fun _ => 0,
        fun _ => some ⟨⟨("i"), ("m"), ("volatility"), ("UP"), 7/10, ("r"), 1, 60, 0,
          emptyIndicators, 30⟩, 0⟩,
        fun _ => 0, 0⟩ ("m") nanosPerSecond).1 = true ∧
    (nanosPerSecond : ℤ) - 0 < getCacheTimeout 60 ∧
    (Predict ⟨⟨7/10, 14, 9, 21, 50, 20, 2⟩, ⟨0⟩⟩
      ⟨⟨7/10, 14, 9, 21, 50, 20, 2⟩, fun _ _ => [], fun _ _ _ => [], fun _ _ => []⟩
      ⟨fun _ => [], fun _ => 0,
        fun _ => some ⟨⟨("i"), ("m"), ("volatility"), ("UP"), 7/10, ("r"), 1, 60, 0,
          emptyIndicators, 30⟩, 0⟩,
        fun _ => 0, 0⟩
      ("m") 60 nanosPerSecond ("id")).1 =
      Except.ok ⟨("i"), ("m"), ("volatility"), ("UP"), 7/10, ("r"), 1, 60, 0,
        emptyIndicators, 30⟩ ∧
    (60:ℤ) ≤ 300 ∧ getCacheTimeout 60 ≤ getCacheTimeout 300 := by
  have hrl : (checkRateLimit ⟨⟨7/10, 14, 9, 21, 50, 20, 2⟩, ⟨0⟩⟩
      ⟨fun _ => [], fun _ => 0,
        fun _ => some ⟨⟨("i"), ("m"), ("volatility"), ("UP"), 7/10, ("r"), 1, 60, 0,
          emptyIndicators, 30⟩, 0⟩,
        fun _ => 0, 0⟩ ("m") nanosPerSecond).1 = true := by
    norm_num [checkRateLimit, maxPerMinute, nanosPerSecond]
  have hage : (nanosPerSecond : ℤ) - 0 < getCacheTimeout 60 := by
    norm_num [getCacheTimeout, nanosPerSecond]
  refine ⟨hrl, hage, ?_, by norm_num, ?_⟩
  · exact ((cache_ttl_behavior ⟨⟨7/10, 14, 9, 21, 50, 20, 2⟩, ⟨0⟩⟩
      ⟨⟨7/10, 14, 9, 21, 50, 20, 2⟩, fun _ _ => [], fun _ _ _ => [], fun _ _ => []⟩
      ⟨fun _ => [], fun _ => 0,
        fun _ => some ⟨⟨("i"), ("m"), ("volatility"), ("UP"), 7/10, ("r"), 1, 60, 0,
          emptyIndicators, 30⟩, 0⟩,
        fun _ => 0, 0⟩
      ("m") 60 nanosPerSecond ("id")).1
      ⟨⟨("i"), ("m"), ("volatility"), ("UP"), 7/10, ("r"), 1, 60, 0, emptyIndicators, 30⟩, 0⟩
      hrl rfl hage).1
  · exact (cache_ttl_behavior ⟨⟨7/10, 14, 9, 21, 50, 20, 2⟩, ⟨0⟩⟩
      ⟨⟨7/10, 14, 9, 21, 50, 20, 2⟩, fun _ _ => [], fun _ _ _ => [], fun _ _ => []⟩
      ⟨fun _ => [], fun _ => 0,
        fun _ => some ⟨⟨("i"), ("m"), ("volatility"), ("UP"), 7/10, ("r"), 1, 60, 0,
          emptyIndicators, 30⟩, 0⟩,
        fun _ => 0, 0⟩
      ("m") 60 nanosPerSecond ("id")).2.2.2 60 300 (by norm_num)
